import Mathlib

/-!
# Timber, the doorbell: the control core of `door_bell.cpp`

A shallow embedding of `DoorBell` (src/timber-esp32-v0/src/door_bell.cpp) and of
the constants it uses (constants.h, types.h, serial.h).

* The object, the credential store and the log of calls made into the board
  libraries are threaded explicitly through every member function (`Machine`).
* What the board libraries answer (radio status, local address, HTTP response,
  wake cause) is read from an `Env`.
* The build flags of constants.h are the fields of a `Config`.
* `esp_deep_sleep_start()` does not return: it leaves the machine `suspended`.
-/

set_option autoImplicit false
set_option linter.dupNamespace false

namespace Timber

/-! ## Board library vocabulary

Arduino.h, WiFi.h, HTTPClient.h and esp_sleep.h belong to the board support package,
not to the repository; what `door_bell.cpp` uses of them is named here. -/

/-- Radio status values, as far as `setupWiFiConnection` tells them apart: the three
    it names and every other value (`default:`). -/
inductive wl_status_t
  | WL_CONNECTED
  | WL_CONNECT_FAILED
  | WL_NO_SSID_AVAIL
  | WL_OTHER
  deriving DecidableEq, Repr

/-- Wake causes, as far as `OnWake` tells them apart: `ESP_SLEEP_WAKEUP_EXT0` and
    every other value (`default:`). -/
inductive esp_sleep_wakeup_cause_t
  | ESP_SLEEP_WAKEUP_EXT0
  | ESP_SLEEP_WAKEUP_OTHER
  deriving DecidableEq, Repr

/-- Pin modes of Arduino.h used by the sketch. -/
inductive PinMode
  | INPUT_PULLUP
  deriving DecidableEq, Repr

/-- Arduino.h: `HIGH` is 1, read into a `bool` as `true` (not pressed). -/
def HIGH : Bool := true

/-- Arduino.h: `LOW` is 0, read into a `bool` as `false` (pressed). -/
def LOW : Bool := false

/-- Modelled from the spec: `HTTP_CODE_OK` of HTTPClient.h, the response code 200. -/
def HTTP_CODE_OK : Int := 200

/-- Number of values of `unsigned long` on the ESP32 (32 bits). -/
def ULONG_MOD : Nat := 2 ^ 32

/-! ## constants.h -/

/-- The `-D` build flags of constants.h. -/
structure Config where
  /-- Flag `DEBUG_MODE` cast to `bool`. -/
  TIMBER_DEBUG_ENABLED : Bool
  /-- Text of `WIFI_SSID`, the initializer of `TIMBER_WIFI_SSID[]`. -/
  WIFI_SSID : String
  /-- Text of `WIFI_PASS`, the initializer of `TIMBER_WIFI_PASS[]`. -/
  WIFI_PASS : String
  /-- Text of `WEBHOOK_URL`, the initializer of `URL_BUTTON_PRESS[]`. -/
  WEBHOOK_URL : String
  deriving Repr

/-- constants.h with no build flag given. -/
def Config.unset : Config :=
  { TIMBER_DEBUG_ENABLED := false
    WIFI_SSID := "Default"
    WIFI_PASS := "Default"
    WEBHOOK_URL := "http://localhost:8123/api/webhook/doorbell" }

/-- Debounce time in milliseconds (constants.h, line 45). -/
def DEBOUNCE_DELAY : Nat := 50

/-- HTTP request timeout in milliseconds (constants.h, line 46). -/
def HTTP_TIMEOUT : Nat := 5000

/-- Pin D15 (constants.h, line 54). -/
def PRESS_BUTTON_PIN : Nat := 15

/-- The value `GPIO_NUM_15` (constants.h, line 55). -/
def GPIO_BUTTON_PIN : Nat := 15

/-- The character-array objects the program compares by address: the named
    `constexpr char[]` arrays of constants.h and the string literals written in
    door_bell.cpp (told apart by line and position). -/
inductive CharArrayObject
  | TIMBER_WIFI_SSID
  | TIMBER_WIFI_PASS
  | URL_BUTTON_PRESS
  | stringLiteral (line : Nat) (position : Nat)
  deriving DecidableEq, Repr

/-- The operator `!=` between two operands of type `const char[N]`, as in
    `TIMBER_WIFI_SSID != "Default"`: both arrays decay to pointers to their first
    element and the pointers are compared. Pointers into two different objects are
    unequal, whatever the arrays hold. -/
def arrayNe (a b : CharArrayObject) : Bool := a != b

/-! ## types.h -/

/-- Template `Device<NUM_PINS>`: `pins` has `NUM_PINS` slots; a slot never written holds no
    value (`none`). -/
structure Device where
  id : String
  pins : List (Option Nat)
  deriving DecidableEq, Repr

/-- The struct `ButtonDevice` of types.h. -/
structure ButtonDevice where
  dev : Device
  deriving DecidableEq, Repr

/-- What goes wrong when an expression reads storage it must not read. -/
inductive Fault
  | outOfBoundsRead
  | uninitializedRead
  deriving DecidableEq, Repr

/-- The read `d.pins[i]`. -/
def Device.readPin (d : Device) (i : Nat) : Except Fault Nat :=
  match d.pins[i]? with
  | none => .error .outOfBoundsRead
  | some none => .error .uninitializedRead
  | some (some pin) => .ok pin

/-! ## door_bell.h -/

/-- The data members of `class DoorBell` (`settings_` is the `nvs` of `Machine`).
    `btn_press_tz_` and `btn_release_tz_` have no initializer: `none` until
    first assigned. -/
structure DoorBell where
  online_ : Bool
  ip_address_ : String
  name_ : String
  version_ : String
  has_button_ : Bool
  button_ : ButtonDevice
  btn_state_ : Bool
  btn_active_ : Bool
  btn_press_tz_ : Option Nat
  btn_release_tz_ : Option Nat
  deriving DecidableEq, Repr

/-- Calls made by `DoorBell` into the board libraries, and entries into the two
    member functions the specification counts. -/
inductive Effect
  | call_handleButtonPress
  | call_enterDeepSleep
  | serial (text : String)
  | delay (ms : Nat)
  | pinMode (pin : Nat) (mode : PinMode)
  | digitalRead (pin : Nat)
  | millis
  | prefs_begin (ns : String) (readOnly : Bool)
  | prefs_getString (key : String)
  | prefs_putString (key : String) (value : String)
  | prefs_end
  | wifi_begin (ssid : String) (pass : String)
  | wifi_status
  | wifi_disconnect (wifioff : Bool)
  | wifi_mode_off
  | wifi_localIP
  | http_begin (url : String)
  | http_setTimeout (ms : Nat)
  | http_addHeader (name : String) (value : String)
  | http_POST (body : String)
  | http_getString
  | http_errorToString (code : Int)
  | http_end
  | esp_sleep_get_wakeup_cause
  | esp_sleep_enable_ext0_wakeup (pin : Nat) (level : Nat)
  | esp_deep_sleep_start
  deriving DecidableEq, Repr

/-- Answers of the board libraries. -/
structure Env where
  /-- Answer of `WiFi.status()`, by the number of earlier status calls. -/
  wifi_status : Nat → wl_status_t
  /-- Answer of `WiFi.localIP().toString()`. -/
  wifi_localIP : String
  /-- Answer of `http.POST(...)`. -/
  http_POST : Int
  /-- Answer of `http.getString()`. -/
  http_getString : String
  /-- Answer of `http.errorToString(code)`. -/
  http_errorToString : Int → String
  /-- Answer of `esp_sleep_get_wakeup_cause()`. -/
  wakeup_cause : esp_sleep_wakeup_cause_t

/-- The device while it runs: the object, the `"wifi"` namespace of the credential
    store, how often the radio status was read, the calls made so far, and whether
    `esp_deep_sleep_start()` was reached. -/
structure Machine where
  bell : DoorBell
  nvs : List (String × String)
  statusCalls : Nat
  trace : List Effect
  suspended : Bool
  deriving DecidableEq, Repr

/-- Append one call to the log. -/
def emit (e : Effect) (m : Machine) : Machine :=
  { m with trace := m.trace ++ [e] }

/-- Library call `Preferences::getString(key, defaultValue)`. -/
def nvsGetString (nvs : List (String × String)) (key : String) (defaultValue : String) : String :=
  match nvs.lookup key with
  | some v => v
  | none => defaultValue

/-- Library call `Preferences::putString(key, value)` on a namespace opened read/write. -/
def nvsPutString (nvs : List (String × String)) (key : String) (value : String) :
    List (String × String) :=
  (key, value) :: nvs.filter (fun kv => kv.1 != key)

/-- Library call `String::isEmpty()`. -/
def isEmpty (s : String) : Bool := s.length == 0

/-! ## serial.h -/

/-- The function `sendDebugMessage(message)` of serial.h. -/
def sendDebugMessage (cfg : Config) (message : String) (m : Machine) : Machine :=
  if cfg.TIMBER_DEBUG_ENABLED then emit (.serial ("[DEBUG] " ++ message ++ "\n")) m else m

/-! ## door_bell.cpp -/

/-- The constructor `DoorBell::DoorBell(name, version)`; `button_` is
    default-initialized, its one pin slot unwritten. -/
def DoorBell.DoorBell (name : String) (version : String) : DoorBell :=
  { name_ := name
    version_ := version
    online_ := false
    ip_address_ := "Unknown"
    has_button_ := false
    button_ := { dev := { id := "", pins := [none] } }
    btn_state_ := HIGH
    btn_active_ := false
    btn_press_tz_ := none
    btn_release_tz_ := none }

/-- The machine right after construction, over a credential store `nvs`. -/
def construct (cfg : Config) (name : String) (version : String) (nvs : List (String × String)) :
    Machine :=
  sendDebugMessage cfg "Hola! I am Timber :]"
    { bell := DoorBell.DoorBell name version
      nvs := nvs
      statusCalls := 0
      trace := []
      suspended := false }

/-- Member function `DoorBell::SetButton(id, pin_in)`. -/
def SetButton (id : String) (pin_in : Nat) (m : Machine) : Machine :=
  { m with bell := { m.bell with
      button_ := { dev := { id := id, pins := [some pin_in] } }
      has_button_ := true } }

/-- One evaluation of `WiFi.status()`. -/
def readStatus (env : Env) (m : Machine) : wl_status_t × Machine :=
  (env.wifi_status m.statusCalls, { emit .wifi_status m with statusCalls := m.statusCalls + 1 })

/-- The loop `while (!isOnline && !hasError && ++numAttempts < 10) { ... }` of
    `setupWiFiConnection`, entered with the given values of its three locals;
    returns `isOnline` at loop exit. -/
def pollLoop (cfg : Config) (env : Env) (isOnline hasError : Bool) (numAttempts : Nat)
    (m : Machine) : Bool × Machine :=
  if !isOnline && !hasError then
    if numAttempts + 1 < 10 then
      let m1 := if cfg.TIMBER_DEBUG_ENABLED then emit (.serial ".") m else m
      let (st, m2) := readStatus env m1
      let flags : Bool × Bool :=
        match st with
        | .WL_CONNECTED => (true, hasError)
        | .WL_CONNECT_FAILED => (isOnline, true)
        | .WL_NO_SSID_AVAIL => (isOnline, true)
        | .WL_OTHER => (isOnline, hasError)
      pollLoop cfg env flags.1 flags.2 (numAttempts + 1) (emit (.delay 500) m2)
    else (isOnline, m)
  else (isOnline, m)
termination_by 10 - numAttempts
decreasing_by omega

/-- Member function `DoorBell::setupWiFiConnection()`. -/
def setupWiFiConnection (cfg : Config) (env : Env) (m : Machine) : Machine :=
  -- Read credentials if possible
  let m := emit (.prefs_begin "wifi" true) m
  let ssid := nvsGetString m.nvs "ssid" ""
  let m := emit (.prefs_getString "ssid") m
  let password := nvsGetString m.nvs "password" ""
  let m := emit (.prefs_getString "password") m
  let m := emit .prefs_end m
  -- Save credentials if necessary
  let save : Bool :=
    isEmpty ssid
      && arrayNe .TIMBER_WIFI_SSID (.stringLiteral 137 1)
      && arrayNe .TIMBER_WIFI_PASS (.stringLiteral 137 2)
  let m :=
    if save then
      let m := emit (.prefs_begin "wifi" false) m
      let m := { emit (.prefs_putString "ssid" cfg.WIFI_SSID) m with
                 nvs := nvsPutString m.nvs "ssid" cfg.WIFI_SSID }
      let m := { emit (.prefs_putString "password" cfg.WIFI_PASS) m with
                 nvs := nvsPutString m.nvs "password" cfg.WIFI_PASS }
      let m := emit .prefs_end m
      sendDebugMessage cfg "WiFi credentials saved" m
    else m
  let ssid := if save then cfg.WIFI_SSID else ssid
  let password := if save then cfg.WIFI_PASS else password
  -- Connect to WiFi if possible
  if !isEmpty ssid then
    let m := if cfg.TIMBER_DEBUG_ENABLED then emit (.serial "Connecting to WiFi") m else m
    let m := emit (.wifi_begin ssid password) m
    let r := pollLoop cfg env false false 0 m
    if r.1 then
      let m := sendDebugMessage cfg "Connection to WiFi established!" r.2
      let m := emit .wifi_localIP m
      { m with bell := { m.bell with online_ := true, ip_address_ := env.wifi_localIP } }
    else
      sendDebugMessage cfg "\n[WARN] Could not establish WiFi connection." r.2
  else
    sendDebugMessage cfg "[WARN] WiFi is unable to connect: missing credentials." m

/-- Member function `DoorBell::ensureWiFiConnected()`. -/
def ensureWiFiConnected (cfg : Config) (env : Env) (m : Machine) : Machine :=
  let (st, m) := readStatus env m
  if st = .WL_CONNECTED then
    { m with bell := { m.bell with online_ := true } }
  else
    let m := emit (.serial "[WARN] WiFi disconnected, reconnecting...\r\n") m
    let m := { m with bell := { m.bell with online_ := false } }
    let m := emit (.wifi_disconnect false) m
    setupWiFiConnection cfg env m

/-- Member function `DoorBell::sendHTTPRequest(url)`. -/
def sendHTTPRequest (cfg : Config) (env : Env) (url : String) (m : Machine) : Bool × Machine :=
  let m := ensureWiFiConnected cfg env m
  if !m.bell.online_ then
    (false, emit (.serial "[WARN] Cannot call webhook - WiFi is not connected\r\n") m)
  else
    let m := emit (.serial ("[INFO] Sending HTTP GET request to:\n   " ++ url ++ "\n")) m
    let m := emit (.http_begin url) m
    let m := emit (.http_setTimeout HTTP_TIMEOUT) m
    let m := emit (.http_addHeader "Content-Type" "application/json") m
    let m := emit (.http_addHeader "X-Device" "timber-doorbell") m
    let httpResponseCode := env.http_POST
    let m := emit (.http_POST "\x7b\x7d") m
    if httpResponseCode > 0 then
      let m := emit (.serial ("[INFO] HTTP Response code: " ++ toString httpResponseCode ++ "\n")) m
      let m :=
        if httpResponseCode = HTTP_CODE_OK then
          let response := env.http_getString
          let m := emit .http_getString m
          if response.utf8ByteSize > 0 && response.utf8ByteSize < 200 then
            emit (.serial ("  Response: " ++ response ++ "\n")) m
          else m
        else m
      (true, emit .http_end m)
    else
      let m := emit (.http_errorToString httpResponseCode) m
      let m := emit (.serial ("[WARN] HTTP Error: " ++ env.http_errorToString httpResponseCode ++ "\n")) m
      (false, emit .http_end m)

/-- Member function `DoorBell::handleButtonPress()`. -/
def handleButtonPress (cfg : Config) (env : Env) (m : Machine) : Machine :=
  let m := emit .call_handleButtonPress m
  let r := sendHTTPRequest cfg env cfg.WEBHOOK_URL m
  if r.1 then
    emit (.serial "[INFO] Press notification sent successfully!\r\n") r.2
  else
    emit (.serial "[WARN] Failed to send press notification\r\n") r.2

/-- Member function `DoorBell::enterDeepSleep()`; the last call does not return. -/
def enterDeepSleep (m : Machine) : Machine :=
  let m := emit .call_enterDeepSleep m
  let m := emit (.serial "[INFO] Entering deep sleep...\r\n") m
  let m := emit (.serial "[INFO] Press button to wake up\r\n") m
  let m := emit (.esp_sleep_enable_ext0_wakeup GPIO_BUTTON_PIN 0) m
  let m := emit (.wifi_disconnect true) m
  let m := emit .wifi_mode_off m
  let m := emit (.delay 100) m
  let m := emit .esp_deep_sleep_start m
  { m with suspended := true }

/-- Member function `DoorBell::Setup()`. -/
def Setup (cfg : Config) (env : Env) (m : Machine) : Except Fault Machine :=
  let configured : Except Fault Machine :=
    if m.bell.has_button_ then
      match m.bell.button_.dev.readPin 1 with
      | .error f => .error f
      | .ok pin => .ok (emit (.pinMode pin .INPUT_PULLUP) m)
    else .ok m
  match configured with
  | .error f => .error f
  | .ok m =>
    let m := setupWiFiConnection cfg env m
    .ok (sendDebugMessage cfg "DoorBell setup completed" m)

/-- Member function `DoorBell::OnWake()`. -/
def OnWake (cfg : Config) (env : Env) (m : Machine) : Machine :=
  let wakeup_reason := env.wakeup_cause
  let m := emit .esp_sleep_get_wakeup_cause m
  match wakeup_reason with
  | .ESP_SLEEP_WAKEUP_EXT0 =>
    let m := handleButtonPress cfg env m
    let m := emit (.delay 500) m
    enterDeepSleep m
  | .ESP_SLEEP_WAKEUP_OTHER => m

/-- The subtraction `btn_release_tz_ - btn_press_tz_` on `unsigned long`. -/
def pressDuration (release : Nat) (press : Nat) : Nat :=
  (release + ULONG_MOD - press) % ULONG_MOD

/-- Member function `DoorBell::OnLoop()`, for one tick on which `digitalRead` gives
    `level` and `millis()`, if called, gives `now`. Control does not come back from
    `enterDeepSleep`, so the closing `delay(10)` is not reached on that path. -/
def OnLoop (cfg : Config) (env : Env) (level : Bool) (now : Nat) (m : Machine) :
    Except Fault Machine :=
  let old_ := m.bell.btn_state_
  let m := emit (.digitalRead PRESS_BUTTON_PIN) m
  let m := { m with bell := { m.bell with btn_state_ := level } }
  if old_ = HIGH ∧ m.bell.btn_state_ = LOW then
    let m := emit .millis m
    let m := { m with bell := { m.bell with btn_press_tz_ := some now, btn_active_ := true } }
    let m := emit (.serial "[v] Button pressed...\r\n") m
    .ok (emit (.delay 10) m)
  else if old_ = LOW ∧ m.bell.btn_state_ = HIGH then
    let m := emit .millis m
    let m := { m with bell := { m.bell with btn_release_tz_ := some now, btn_active_ := false } }
    match m.bell.btn_press_tz_ with
    | none => .error .uninitializedRead
    | some press =>
      if pressDuration now press ≥ DEBOUNCE_DELAY then
        let m := handleButtonPress cfg env m
        let m := emit (.delay 3000) m
        .ok (enterDeepSleep m)
      else
        .ok (emit (.delay 10) m)
  else
    .ok (emit (.delay 10) m)

/-- Modelled from the spec: the control cycle of the sketch, whose `loop()` is not
    under src/. It calls `OnLoop` once per tick, here once per sample `(level, now)`;
    deep sleep is terminal, so no tick follows it, and a tick that faults ends the
    run. -/
def runLoop (cfg : Config) (env : Env) : List (Bool × Nat) → Machine → Except Fault Machine
  | [], m => .ok m
  | (level, now) :: rest, m =>
    if m.suspended then .ok m
    else
      match OnLoop cfg env level now m with
      | .error f => .error f
      | .ok m1 => runLoop cfg env rest m1

/-! ## Reading the log -/

/-- The calls made between machine `m` and a later machine `m1`. -/
def since (m m1 : Machine) : List Effect := m1.trace.drop m.trace.length

/-- Number of entries into `handleButtonPress` (notification attempts). -/
def pressCalls (es : List Effect) : Nat := es.count .call_handleButtonPress

/-- Number of entries into `enterDeepSleep`. -/
def sleepCalls (es : List Effect) : Nat := es.count .call_enterDeepSleep

/-- Number of `WiFi.status()` calls. -/
def statusPolls (es : List Effect) : Nat := es.count .wifi_status

/-- Is the call a `delay(...)`? -/
def Effect.isDelay : Effect → Bool
  | .delay _ => true
  | _ => false

/-- Number of `delay(...)` calls. -/
def delayCalls (es : List Effect) : Nat := es.countP Effect.isDelay

/-- Milliseconds spent in `delay(...)` calls. -/
def delayTotal : List Effect → Nat
  | [] => 0
  | .delay ms :: es => ms + delayTotal es
  | _ :: es => delayTotal es

/-- Is the call one into the HTTP client? -/
def Effect.isHttp : Effect → Bool
  | .http_begin _ => true
  | .http_setTimeout _ => true
  | .http_addHeader _ _ => true
  | .http_POST _ => true
  | .http_getString => true
  | .http_errorToString _ => true
  | .http_end => true
  | _ => false

/-- Is the call an `http.POST(...)`? -/
def Effect.isPost : Effect → Bool
  | .http_POST _ => true
  | _ => false

/-- Is the call one into the credential store? -/
def Effect.isPrefs : Effect → Bool
  | .prefs_begin _ _ => true
  | .prefs_getString _ => true
  | .prefs_putString _ _ => true
  | .prefs_end => true
  | _ => false

/-- Is the call a write to the credential store? -/
def Effect.isPrefsWrite : Effect → Bool
  | .prefs_putString _ _ => true
  | _ => false

/-- Is the call a `WiFi.begin(...)`? -/
def Effect.isWifiBegin : Effect → Bool
  | .wifi_begin _ _ => true
  | _ => false

/-- Is the call a `WiFi.disconnect(...)`? -/
def Effect.isWifiDisconnect : Effect → Bool
  | .wifi_disconnect _ => true
  | _ => false

/-- Is the call a `digitalRead(...)` (a button sample)? -/
def Effect.isSample : Effect → Bool
  | .digitalRead _ => true
  | _ => false

/-- Calls that connection setup can make: logging, delays, the credential store
    and the radio. -/
def Effect.isConnectOrLog : Effect → Bool
  | .serial _ => true
  | .delay _ => true
  | .prefs_begin _ _ => true
  | .prefs_getString _ => true
  | .prefs_putString _ _ => true
  | .prefs_end => true
  | .wifi_begin _ _ => true
  | .wifi_status => true
  | .wifi_disconnect _ => true
  | .wifi_localIP => true
  | _ => false

/-- Calls that connection setup and the webhook request can make: logging, delays,
    the credential store, the radio and the HTTP client. -/
def Effect.isNetworkOrLog : Effect → Bool
  | .serial _ => true
  | .delay _ => true
  | .prefs_begin _ _ => true
  | .prefs_getString _ => true
  | .prefs_putString _ _ => true
  | .prefs_end => true
  | .wifi_begin _ _ => true
  | .wifi_status => true
  | .wifi_disconnect _ => true
  | .wifi_localIP => true
  | .http_begin _ => true
  | .http_setTimeout _ => true
  | .http_addHeader _ _ => true
  | .http_POST _ => true
  | .http_getString => true
  | .http_errorToString _ => true
  | .http_end => true
  | _ => false

/-- A radio status that neither ends the poll loop with success nor with an error. -/
def wl_status_t.isPending (st : wl_status_t) : Bool :=
  st != .WL_CONNECTED && st != .WL_CONNECT_FAILED && st != .WL_NO_SSID_AVAIL

/-- The tail of the log written by `enterDeepSleep`. -/
def sleepSequence : List Effect :=
  [ .call_enterDeepSleep,
    .serial "[INFO] Entering deep sleep...\r\n",
    .serial "[INFO] Press button to wake up\r\n",
    .esp_sleep_enable_ext0_wakeup GPIO_BUTTON_PIN 0,
    .wifi_disconnect true,
    .wifi_mode_off,
    .delay 100,
    .esp_deep_sleep_start ]

/-! ## Log extensions -/

/-- Do two objects agree on every member except `online_` and `ip_address_`? -/
def sameButNetwork (a b : DoorBell) : Prop :=
  b = { a with online_ := b.online_, ip_address_ := b.ip_address_ }

/-- A log extension: `m1` has the log of `m` followed by `es`, is suspended exactly
    if `m` is, and its object differs from that of `m` at most in `online_` and
    `ip_address_`. -/
structure Extends (m m1 : Machine) (es : List Effect) : Prop where
  trace_eq : m1.trace = m.trace ++ es
  suspended_eq : m1.suspended = m.suspended
  bell_eq : sameButNetwork m.bell m1.bell

/-- The log written by `sendDebugMessage`. -/
def debugCalls (cfg : Config) (message : String) : List Effect :=
  if cfg.TIMBER_DEBUG_ENABLED then [.serial ("[DEBUG] " ++ message ++ "\n")] else []

/-! ## The poll loop -/

/-- The machine after the debug dot of one loop round. -/
def afterDot (cfg : Config) (m : Machine) : Machine :=
  if cfg.TIMBER_DEBUG_ENABLED then emit (.serial ".") m else m

/-- The machine after one full round of the poll loop body. -/
def afterRound (cfg : Config) (env : Env) (m : Machine) : Machine :=
  emit (.delay 500) (readStatus env (afterDot cfg m)).2

/-- The calls of one round of the poll loop body. -/
def roundCalls (cfg : Config) : List Effect :=
  (if cfg.TIMBER_DEBUG_ENABLED then [.serial "."] else []) ++ [.wifi_status, .delay 500]

/-! ## Connection setup, part by part -/

/-- The guard of line 137 of door_bell.cpp, for a loaded `ssid`. -/
def saveGuard (ssid : String) : Bool :=
  isEmpty ssid
    && arrayNe .TIMBER_WIFI_SSID (.stringLiteral 137 1)
    && arrayNe .TIMBER_WIFI_PASS (.stringLiteral 137 2)

/-- Lines 130 to 146 of `setupWiFiConnection`: the machine after the credentials
    are loaded and, under the guard, saved. -/
def loadCredentials (cfg : Config) (m : Machine) : Machine :=
  let m := emit (.prefs_begin "wifi" true) m
  let ssid := nvsGetString m.nvs "ssid" ""
  let m := emit (.prefs_getString "ssid") m
  let m := emit (.prefs_getString "password") m
  let m := emit .prefs_end m
  if saveGuard ssid then
    let m := emit (.prefs_begin "wifi" false) m
    let m := { emit (.prefs_putString "ssid" cfg.WIFI_SSID) m with
               nvs := nvsPutString m.nvs "ssid" cfg.WIFI_SSID }
    let m := { emit (.prefs_putString "password" cfg.WIFI_PASS) m with
               nvs := nvsPutString m.nvs "password" cfg.WIFI_PASS }
    let m := emit .prefs_end m
    sendDebugMessage cfg "WiFi credentials saved" m
  else m

/-- The local `ssid` at line 149. -/
def ssidInUse (cfg : Config) (m : Machine) : String :=
  if saveGuard (nvsGetString m.nvs "ssid" "") then cfg.WIFI_SSID
  else nvsGetString m.nvs "ssid" ""

/-- The local `password` at line 149. -/
def passwordInUse (cfg : Config) (m : Machine) : String :=
  if saveGuard (nvsGetString m.nvs "ssid" "") then cfg.WIFI_PASS
  else nvsGetString m.nvs "password" ""

/-- Lines 150 to 154: the debug line and `WiFi.begin`. -/
def beginConnect (cfg : Config) (ssid password : String) (m : Machine) : Machine :=
  emit (.wifi_begin ssid password)
    (if cfg.TIMBER_DEBUG_ENABLED then emit (.serial "Connecting to WiFi") m else m)

/-- Lines 179 to 185: what follows the poll loop. -/
def finishConnect (cfg : Config) (env : Env) (r : Bool × Machine) : Machine :=
  if r.1 then
    let m := sendDebugMessage cfg "Connection to WiFi established!" r.2
    let m := emit .wifi_localIP m
    { m with bell := { m.bell with online_ := true, ip_address_ := env.wifi_localIP } }
  else
    sendDebugMessage cfg "\n[WARN] Could not establish WiFi connection." r.2

/-- The calls of lines 130 to 146. -/
def loadCalls (cfg : Config) (save : Bool) : List Effect :=
  [.prefs_begin "wifi" true, .prefs_getString "ssid", .prefs_getString "password", .prefs_end]
    ++ (if save then
          [.prefs_begin "wifi" false, .prefs_putString "ssid" cfg.WIFI_SSID,
            .prefs_putString "password" cfg.WIFI_PASS, .prefs_end]
            ++ debugCalls cfg "WiFi credentials saved"
        else [])

/-- A stretch of log with `k` status polls, `k` delays of 500 ms each, and nothing
    but logging, credential store and radio calls. -/
structure PollProfile (es : List Effect) (k : Nat) : Prop where
  polls : statusPolls es = k
  delays : delayCalls es = k
  total : delayTotal es = 500 * k
  kind : ∀ e ∈ es, e.isConnectOrLog = true
  each : ∀ ms, Effect.delay ms ∈ es → ms = 500

/-- The calls of lines 150 to 154. -/
def beginCalls (cfg : Config) (ssid password : String) : List Effect :=
  (if cfg.TIMBER_DEBUG_ENABLED then [.serial "Connecting to WiFi"] else [])
    ++ [.wifi_begin ssid password]

/-- The calls of lines 179 to 185. -/
def finishCalls (cfg : Config) (isOnline : Bool) : List Effect :=
  if isOnline then debugCalls cfg "Connection to WiFi established!" ++ [.wifi_localIP]
  else debugCalls cfg "\n[WARN] Could not establish WiFi connection."

/-- The machine on which the poll loop of `setupWiFiConnection` starts. -/
def connectStart (cfg : Config) (m : Machine) : Machine :=
  beginConnect cfg (ssidInUse cfg m) (passwordInUse cfg m) (loadCredentials cfg m)

/-- The local `isOnline` of `setupWiFiConnection` after its poll loop. -/
def pollOutcome (cfg : Config) (env : Env) (m : Machine) : Bool :=
  (pollLoop cfg env false false 0 (connectStart cfg m)).1

/-! ## Sample builds and environments -/

/-- A build with `-DWIFI_SSID="HomeNet" -DWIFI_PASS="secret123"`. -/
def homeNet : Config :=
  { TIMBER_DEBUG_ENABLED := false
    WIFI_SSID := "HomeNet"
    WIFI_PASS := "secret123"
    WEBHOOK_URL := "http://homeassistant.local:8123/api/webhook/doorbell" }

/-- A build with `-DWIFI_SSID="" -DWIFI_PASS="secret123"`. -/
def blankSsid : Config :=
  { TIMBER_DEBUG_ENABLED := false
    WIFI_SSID := ""
    WIFI_PASS := "secret123"
    WEBHOOK_URL := "http://homeassistant.local:8123/api/webhook/doorbell" }

/-- A radio that reports a pending status `k` times and `st` from then on. -/
def radioThen (k : Nat) (st : wl_status_t) : Nat → wl_status_t :=
  fun i => if i < k then .WL_OTHER else st

/-- An environment with the given radio and HTTP response. -/
def envWith (radio : Nat → wl_status_t) (code : Int) (body : String) : Env :=
  { wifi_status := radio
    wifi_localIP := "192.168.1.23"
    http_POST := code
    http_getString := body
    http_errorToString := fun _ => "connection refused"
    wakeup_cause := .ESP_SLEEP_WAKEUP_EXT0 }

/-! ## The webhook request -/

/-- The machine on which `ensureWiFiConnected` calls `setupWiFiConnection`. -/
def reconnectStart (m : Machine) : Machine :=
  emit (.wifi_disconnect false)
    { emit (.serial "[WARN] WiFi disconnected, reconnecting...\r\n")
        { emit .wifi_status m with statusCalls := m.statusCalls + 1 } with
      bell := { m.bell with online_ := false } }

/-- The calls of `sendHTTPRequest` after `ensureWiFiConnected`, when online. -/
def httpCalls (env : Env) (url : String) : List Effect :=
  [ .serial ("[INFO] Sending HTTP GET request to:\n   " ++ url ++ "\n"),
    .http_begin url,
    .http_setTimeout HTTP_TIMEOUT,
    .http_addHeader "Content-Type" "application/json",
    .http_addHeader "X-Device" "timber-doorbell",
    .http_POST "\x7b\x7d" ]
  ++ (if env.http_POST > 0 then
        [.serial ("[INFO] HTTP Response code: " ++ toString env.http_POST ++ "\n")]
        ++ (if env.http_POST = HTTP_CODE_OK then
              [.http_getString]
              ++ (if env.http_getString.utf8ByteSize > 0 && env.http_getString.utf8ByteSize < 200
                  then [.serial ("  Response: " ++ env.http_getString ++ "\n")] else [])
            else [])
        ++ [.http_end]
      else
        [.http_errorToString env.http_POST,
          .serial ("[WARN] HTTP Error: " ++ env.http_errorToString env.http_POST ++ "\n"),
          .http_end])

/-! ## The run loop and the wake dispatcher -/

/-- Is the object in a state the run loop can be in: `btn_active_` set exactly while
    the last sample is `LOW`, and a press timestamp recorded by then. -/
def ButtonInvariant (b : DoorBell) : Prop :=
  (b.btn_active_ = true ↔ b.btn_state_ = LOW) ∧ (b.btn_state_ = LOW → b.btn_press_tz_.isSome = true)

/-- The object after the release edge of `OnLoop` at time `now`. -/
def released (b : DoorBell) (now : Nat) : DoorBell :=
  { b with btn_state_ := HIGH, btn_release_tz_ := some now, btn_active_ := false }

/-- The machine after the sample of a tick that reads `level`. -/
def afterSample (m : Machine) (level : Bool) : Machine :=
  { emit (.digitalRead PRESS_BUTTON_PIN) m with bell := { m.bell with btn_state_ := level } }

/-- The machine after the two assignments of the release edge. -/
def afterRelease (m : Machine) (now : Nat) : Machine :=
  { emit .millis (afterSample m HIGH) with bell := released m.bell now }

/-- The machine after the press edge, before the tick delay. -/
def afterPress (m : Machine) (now : Nat) : Machine :=
  emit (.serial "[v] Button pressed...\r\n")
    { emit .millis (afterSample m LOW) with
      bell := { m.bell with btn_state_ := LOW, btn_press_tz_ := some now, btn_active_ := true } }

/-- A machine whose button went down at time 1000 and has not been released. -/
def heldSince1000 : Machine :=
  { bell := { DoorBell.DoorBell "Timber" "1.0.0" with
              btn_state_ := LOW, btn_active_ := true, btn_press_tz_ := some 1000 }
    nvs := [("ssid", "HomeNet"), ("password", "secret123")]
    statusCalls := 0
    trace := []
    suspended := false }

/-- Calls that attempt a connection or touch the credential store. -/
def Effect.isConnectionOrCredential (e : Effect) : Bool :=
  e.isWifiBegin || e.isWifiDisconnect || e.isPrefs

/-! ## Basic facts -/

@[simp]
theorem emit_trace (e : Effect) (m : Machine) : (emit e m).trace = m.trace ++ [e] := rfl

@[simp]
theorem emit_bell (e : Effect) (m : Machine) : (emit e m).bell = m.bell := rfl

@[simp]
theorem emit_nvs (e : Effect) (m : Machine) : (emit e m).nvs = m.nvs := rfl

@[simp]
theorem emit_statusCalls (e : Effect) (m : Machine) :
    (emit e m).statusCalls = m.statusCalls := rfl

@[simp]
theorem emit_suspended (e : Effect) (m : Machine) :
    (emit e m).suspended = m.suspended := rfl

theorem since_of_trace (m m1 : Machine) (es : List Effect) (h : m1.trace = m.trace ++ es) :
    since m m1 = es := by
  simp [since, h]

theorem isEmpty_iff (s : String) : isEmpty s = true ↔ s = "" := by
  unfold isEmpty
  constructor
  · intro h
    have h3 : s.data.length = 0 := by simpa using h
    exact String.ext (List.length_eq_zero.mp h3)
  · rintro rfl; rfl

theorem isEmpty_eq_false (s : String) (h : s ≠ "") : isEmpty s = false := by
  cases hs : isEmpty s with
  | false => rfl
  | true => exact absurd ((isEmpty_iff s).mp hs) h

theorem isPending_iff (st : wl_status_t) : st.isPending = true ↔ st = .WL_OTHER := by
  cases st <;> simp [wl_status_t.isPending]

theorem sameButNetwork_refl (a : DoorBell) : sameButNetwork a a := rfl

theorem sameButNetwork_trans {a b c : DoorBell} (h1 : sameButNetwork a b)
    (h2 : sameButNetwork b c) : sameButNetwork a c := by
  unfold sameButNetwork at *
  rw [h2, h1]

theorem Extends.refl (m : Machine) : Extends m m [] := ⟨by simp, rfl, rfl⟩

theorem Extends.trans {a b c : Machine} {xs ys : List Effect}
    (h1 : Extends a b xs) (h2 : Extends b c ys) : Extends a c (xs ++ ys) :=
  ⟨by rw [h2.trace_eq, h1.trace_eq, List.append_assoc], by rw [h2.suspended_eq, h1.suspended_eq],
    sameButNetwork_trans h1.bell_eq h2.bell_eq⟩

theorem Extends.of_eq {m m1 : Machine} {es : List Effect} (ht : m1.trace = m.trace ++ es)
    (hs : m1.suspended = m.suspended) (hb : m1.bell = m.bell) : Extends m m1 es :=
  ⟨ht, hs, by rw [hb]; exact sameButNetwork_refl _⟩

theorem Extends.emit (e : Effect) (m : Machine) : Extends m (emit e m) [e] := ⟨rfl, rfl, rfl⟩

theorem sendDebugMessage_extends (cfg : Config) (message : String) (m : Machine) :
    Extends m (sendDebugMessage cfg message m) (debugCalls cfg message) := by
  unfold sendDebugMessage debugCalls
  cases cfg.TIMBER_DEBUG_ENABLED
  · exact Extends.refl m
  · exact Extends.emit _ m

theorem sendDebugMessage_nvs (cfg : Config) (message : String) (m : Machine) :
    (sendDebugMessage cfg message m).nvs = m.nvs := by
  unfold sendDebugMessage
  cases cfg.TIMBER_DEBUG_ENABLED <;> rfl

theorem sendDebugMessage_statusCalls (cfg : Config) (message : String) (m : Machine) :
    (sendDebugMessage cfg message m).statusCalls = m.statusCalls := by
  unfold sendDebugMessage
  cases cfg.TIMBER_DEBUG_ENABLED <;> rfl

theorem sendDebugMessage_bell (cfg : Config) (message : String) (m : Machine) :
    (sendDebugMessage cfg message m).bell = m.bell := by
  unfold sendDebugMessage
  cases cfg.TIMBER_DEBUG_ENABLED <;> rfl

/-! ## The poll loop: facts -/

theorem pollLoop_done (cfg : Config) (env : Env) (isOnline hasError : Bool) (n : Nat)
    (m : Machine) (h : isOnline = true ∨ hasError = true) :
    pollLoop cfg env isOnline hasError n m = (isOnline, m) := by
  rw [pollLoop]
  rcases h with h | h <;> simp [h]

theorem pollLoop_spent (cfg : Config) (env : Env) (isOnline hasError : Bool) (n : Nat)
    (m : Machine) (h : 10 ≤ n + 1) :
    pollLoop cfg env isOnline hasError n m = (isOnline, m) := by
  rw [pollLoop]
  have : ¬ (n + 1 < 10) := by omega
  simp [this]

theorem pollLoop_round (cfg : Config) (env : Env) (n : Nat) (m : Machine) (h : n + 1 < 10) :
    pollLoop cfg env false false n m =
      pollLoop cfg env (decide (env.wifi_status m.statusCalls = .WL_CONNECTED))
        (decide (env.wifi_status m.statusCalls = .WL_CONNECT_FAILED
          ∨ env.wifi_status m.statusCalls = .WL_NO_SSID_AVAIL))
        (n + 1) (afterRound cfg env m) := by
  rw [pollLoop]
  cases hd : cfg.TIMBER_DEBUG_ENABLED <;> cases hst : env.wifi_status m.statusCalls <;>
    simp [afterRound, afterDot, readStatus, hd, hst, h]

theorem afterRound_bell (cfg : Config) (env : Env) (m : Machine) :
    (afterRound cfg env m).bell = m.bell := by
  cases hd : cfg.TIMBER_DEBUG_ENABLED <;> simp [afterRound, afterDot, readStatus, hd]

theorem afterRound_nvs (cfg : Config) (env : Env) (m : Machine) :
    (afterRound cfg env m).nvs = m.nvs := by
  cases hd : cfg.TIMBER_DEBUG_ENABLED <;> simp [afterRound, afterDot, readStatus, hd]

theorem afterRound_suspended (cfg : Config) (env : Env) (m : Machine) :
    (afterRound cfg env m).suspended = m.suspended := by
  cases hd : cfg.TIMBER_DEBUG_ENABLED <;> simp [afterRound, afterDot, readStatus, hd]

theorem afterRound_statusCalls (cfg : Config) (env : Env) (m : Machine) :
    (afterRound cfg env m).statusCalls = m.statusCalls + 1 := by
  cases hd : cfg.TIMBER_DEBUG_ENABLED <;> simp [afterRound, afterDot, readStatus, hd]

theorem afterRound_trace (cfg : Config) (env : Env) (m : Machine) :
    (afterRound cfg env m).trace = m.trace ++ roundCalls cfg := by
  cases hd : cfg.TIMBER_DEBUG_ENABLED <;> simp [afterRound, afterDot, readStatus, roundCalls, hd]

theorem statusPolls_append (xs ys : List Effect) :
    statusPolls (xs ++ ys) = statusPolls xs + statusPolls ys := by
  simp [statusPolls]

theorem delayCalls_append (xs ys : List Effect) :
    delayCalls (xs ++ ys) = delayCalls xs + delayCalls ys := by
  simp [delayCalls]

theorem delayTotal_append (xs ys : List Effect) :
    delayTotal (xs ++ ys) = delayTotal xs + delayTotal ys := by
  induction xs with
  | nil => simp [delayTotal]
  | cons x xs ih => cases x <;> simp [delayTotal, ih, Nat.add_assoc]

theorem roundCalls_counts (cfg : Config) :
    statusPolls (roundCalls cfg) = 1 ∧ delayCalls (roundCalls cfg) = 1
      ∧ delayTotal (roundCalls cfg) = 500
      ∧ ∀ e ∈ roundCalls cfg, e = .wifi_status ∨ e = .delay 500 ∨ e = .serial "." := by
  cases hd : cfg.TIMBER_DEBUG_ENABLED <;>
    simp [roundCalls, hd, statusPolls, delayCalls, delayTotal, Effect.isDelay]

/-- What the poll loop leaves alone and what it appends to the log: `k` rounds,
    each one status poll and one 500 ms delay, with `k` bounded by the attempts the
    counter still allows. -/
theorem pollLoop_frame (cfg : Config) (env : Env) :
    ∀ (j n : Nat) (isOnline hasError : Bool) (m : Machine), 9 - n = j →
      (pollLoop cfg env isOnline hasError n m).2.bell = m.bell
      ∧ (pollLoop cfg env isOnline hasError n m).2.nvs = m.nvs
      ∧ (pollLoop cfg env isOnline hasError n m).2.suspended = m.suspended
      ∧ ∃ es, (pollLoop cfg env isOnline hasError n m).2.trace = m.trace ++ es
          ∧ (pollLoop cfg env isOnline hasError n m).2.statusCalls
              = m.statusCalls + statusPolls es
          ∧ statusPolls es ≤ 9 - n
          ∧ delayCalls es = statusPolls es
          ∧ delayTotal es = 500 * statusPolls es
          ∧ ∀ e ∈ es, e = .wifi_status ∨ e = .delay 500 ∨ e = .serial "." := by
  intro j
  induction j with
  | zero =>
    intro n isOnline hasError m hj
    rw [pollLoop_spent cfg env isOnline hasError n m (by omega)]
    exact ⟨rfl, rfl, rfl, [], by simp [statusPolls, delayCalls, delayTotal]⟩
  | succ j ih =>
    intro n isOnline hasError m hj
    by_cases hflag : isOnline = true ∨ hasError = true
    · rw [pollLoop_done cfg env isOnline hasError n m hflag]
      exact ⟨rfl, rfl, rfl, [], by simp [statusPolls, delayCalls, delayTotal]⟩
    · have h1 : isOnline = false := by
        cases isOnline
        · rfl
        · exact absurd (Or.inl rfl) hflag
      have h2 : hasError = false := by
        cases hasError
        · rfl
        · exact absurd (Or.inr rfl) hflag
      subst h1 h2
      rw [pollLoop_round cfg env n m (by omega)]
      obtain ⟨hb, hn, hs, es, ht, hc, hle, hd, hdt, hall⟩ :=
        ih (n + 1) (decide (env.wifi_status m.statusCalls = .WL_CONNECTED))
          (decide (env.wifi_status m.statusCalls = .WL_CONNECT_FAILED
            ∨ env.wifi_status m.statusCalls = .WL_NO_SSID_AVAIL))
          (afterRound cfg env m) (by omega)
      obtain ⟨r1, r2, r3, r4⟩ := roundCalls_counts cfg
      refine ⟨by rw [hb, afterRound_bell], by rw [hn, afterRound_nvs],
        by rw [hs, afterRound_suspended], roundCalls cfg ++ es, ?_, ?_, ?_, ?_, ?_, ?_⟩
      · rw [ht, afterRound_trace, List.append_assoc]
      · rw [hc, afterRound_statusCalls, statusPolls_append, r1]; omega
      · rw [statusPolls_append, r1]; omega
      · rw [delayCalls_append, statusPolls_append, r1, r2, hd]
      · rw [delayTotal_append, statusPolls_append, r1, r3, hdt]; omega
      · intro e he
        rcases List.mem_append.mp he with he | he
        · exact r4 e he
        · exact hall e he

/-- The poll loop succeeds at its `(k+1)`-th poll when the `k` polls before it are
    pending and the counter still allows `k + 1` rounds. -/
theorem pollLoop_connects (cfg : Config) (env : Env) :
    ∀ (k n : Nat) (m : Machine), n + k + 1 ≤ 9 →
      (∀ i, i < k → (env.wifi_status (m.statusCalls + i)).isPending = true) →
      env.wifi_status (m.statusCalls + k) = .WL_CONNECTED →
      (pollLoop cfg env false false n m).1 = true
      ∧ (pollLoop cfg env false false n m).2.statusCalls = m.statusCalls + k + 1 := by
  intro k
  induction k with
  | zero =>
    intro n m hn _ hc
    rw [pollLoop_round cfg env n m (by omega)]
    simp only [Nat.add_zero] at hc
    rw [hc, pollLoop_done cfg env _ _ _ _ (Or.inl (by simp))]
    simp [afterRound_statusCalls]
  | succ k ih =>
    intro n m hn hp hc
    have h0 : env.wifi_status m.statusCalls = .WL_OTHER :=
      (isPending_iff _).mp (by simpa using hp 0 (by omega))
    rw [pollLoop_round cfg env n m (by omega), h0]
    have hs := afterRound_statusCalls cfg env m
    obtain ⟨a, b⟩ := ih (n + 1) (afterRound cfg env m) (by omega)
      (by
        intro i hi
        rw [hs]
        have := hp (i + 1) (by omega)
        rwa [show m.statusCalls + 1 + i = m.statusCalls + (i + 1) by omega])
      (by rwa [hs, show m.statusCalls + 1 + k = m.statusCalls + (k + 1) by omega])
    refine ⟨by simpa using a, ?_⟩
    have b1 : (pollLoop cfg env false false (n + 1) (afterRound cfg env m)).2.statusCalls
        = m.statusCalls + (k + 1) + 1 := by rw [b, hs]; omega
    simpa using b1

/-- The poll loop stops with an error at its `(k+1)`-th poll when the `k` polls
    before it are pending and that poll reports a terminal failure. -/
theorem pollLoop_fails (cfg : Config) (env : Env) :
    ∀ (k n : Nat) (m : Machine), n + k + 1 ≤ 9 →
      (∀ i, i < k → (env.wifi_status (m.statusCalls + i)).isPending = true) →
      (env.wifi_status (m.statusCalls + k) = .WL_CONNECT_FAILED
        ∨ env.wifi_status (m.statusCalls + k) = .WL_NO_SSID_AVAIL) →
      (pollLoop cfg env false false n m).1 = false
      ∧ (pollLoop cfg env false false n m).2.statusCalls = m.statusCalls + k + 1 := by
  intro k
  induction k with
  | zero =>
    intro n m hn _ hc
    rw [pollLoop_round cfg env n m (by omega)]
    simp only [Nat.add_zero] at hc
    have hne : env.wifi_status m.statusCalls ≠ .WL_CONNECTED := by
      rcases hc with hc | hc <;> rw [hc] <;> decide
    rw [pollLoop_done cfg env _ _ _ _ (Or.inr (by simpa using hc))]
    simp [afterRound_statusCalls, hne]
  | succ k ih =>
    intro n m hn hp hc
    have h0 : env.wifi_status m.statusCalls = .WL_OTHER :=
      (isPending_iff _).mp (by simpa using hp 0 (by omega))
    rw [pollLoop_round cfg env n m (by omega), h0]
    have hs := afterRound_statusCalls cfg env m
    obtain ⟨a, b⟩ := ih (n + 1) (afterRound cfg env m) (by omega)
      (by
        intro i hi
        rw [hs]
        have := hp (i + 1) (by omega)
        rwa [show m.statusCalls + 1 + i = m.statusCalls + (i + 1) by omega])
      (by rwa [hs, show m.statusCalls + 1 + k = m.statusCalls + (k + 1) by omega])
    refine ⟨by simpa using a, ?_⟩
    have b1 : (pollLoop cfg env false false (n + 1) (afterRound cfg env m)).2.statusCalls
        = m.statusCalls + (k + 1) + 1 := by rw [b, hs]; omega
    simpa using b1

/-- The poll loop gives up offline after exactly `9 - n` polls when all of them are
    pending. -/
theorem pollLoop_exhausts (cfg : Config) (env : Env) :
    ∀ (j n : Nat) (m : Machine), n + j = 9 →
      (∀ i, i < j → (env.wifi_status (m.statusCalls + i)).isPending = true) →
      (pollLoop cfg env false false n m).1 = false
      ∧ (pollLoop cfg env false false n m).2.statusCalls = m.statusCalls + j := by
  intro j
  induction j with
  | zero =>
    intro n m hn _
    rw [pollLoop_spent cfg env _ _ n m (by omega)]
    simp
  | succ j ih =>
    intro n m hn hp
    have h0 : env.wifi_status m.statusCalls = .WL_OTHER :=
      (isPending_iff _).mp (by simpa using hp 0 (by omega))
    rw [pollLoop_round cfg env n m (by omega), h0]
    have hs := afterRound_statusCalls cfg env m
    obtain ⟨a, b⟩ := ih (n + 1) (afterRound cfg env m) (by omega)
      (by
        intro i hi
        rw [hs]
        have := hp (i + 1) (by omega)
        rwa [show m.statusCalls + 1 + i = m.statusCalls + (i + 1) by omega])
    refine ⟨by simpa using a, ?_⟩
    have b1 : (pollLoop cfg env false false (n + 1) (afterRound cfg env m)).2.statusCalls
        = m.statusCalls + (j + 1) := by rw [b, hs]; omega
    simpa using b1

/-! ## Connection setup, part by part: facts -/

theorem setupWiFiConnection_eq (cfg : Config) (env : Env) (m : Machine) :
    setupWiFiConnection cfg env m =
      if !isEmpty (ssidInUse cfg m) then
        finishConnect cfg env
          (pollLoop cfg env false false 0
            (beginConnect cfg (ssidInUse cfg m) (passwordInUse cfg m) (loadCredentials cfg m)))
      else
        sendDebugMessage cfg "[WARN] WiFi is unable to connect: missing credentials."
          (loadCredentials cfg m) := by
  unfold setupWiFiConnection loadCredentials ssidInUse passwordInUse beginConnect finishConnect
    saveGuard
  simp only [emit_nvs]

/-- The guard of line 137 holds exactly when the loaded SSID is empty: the two
    array comparisons are between different objects. -/
theorem saveGuard_eq (ssid : String) : saveGuard ssid = isEmpty ssid := by
  unfold saveGuard
  have h1 : arrayNe .TIMBER_WIFI_SSID (.stringLiteral 137 1) = true := by decide
  have h2 : arrayNe .TIMBER_WIFI_PASS (.stringLiteral 137 2) = true := by decide
  rw [h1, h2]
  simp

theorem loadCredentials_extends (cfg : Config) (m : Machine) :
    Extends m (loadCredentials cfg m)
      (loadCalls cfg (isEmpty (nvsGetString m.nvs "ssid" ""))) := by
  unfold loadCredentials loadCalls
  simp only [emit_nvs, saveGuard_eq]
  cases isEmpty (nvsGetString m.nvs "ssid" "")
  · exact ⟨by simp, rfl, rfl⟩
  · have h := sendDebugMessage_extends cfg "WiFi credentials saved"
    simp only [if_true]
    refine ⟨?_, ?_, ?_⟩
    · rw [(h _).trace_eq]; simp
    · rw [(h _).suspended_eq]; rfl
    · rw [sendDebugMessage_bell]; rfl

theorem loadCredentials_statusCalls (cfg : Config) (m : Machine) :
    (loadCredentials cfg m).statusCalls = m.statusCalls := by
  unfold loadCredentials
  simp only [emit_nvs]
  cases saveGuard (nvsGetString m.nvs "ssid" "")
  · rfl
  · simp only [if_true]; rw [sendDebugMessage_statusCalls]; rfl

theorem loadCredentials_nvs (cfg : Config) (m : Machine) :
    (loadCredentials cfg m).nvs =
      if isEmpty (nvsGetString m.nvs "ssid" "") then
        nvsPutString (nvsPutString m.nvs "ssid" cfg.WIFI_SSID) "password" cfg.WIFI_PASS
      else m.nvs := by
  unfold loadCredentials
  simp only [emit_nvs, saveGuard_eq]
  cases isEmpty (nvsGetString m.nvs "ssid" "")
  · rfl
  · simp only [if_true]; rw [sendDebugMessage_nvs]; rfl

theorem PollProfile.append {xs ys : List Effect} {a b : Nat}
    (h1 : PollProfile xs a) (h2 : PollProfile ys b) : PollProfile (xs ++ ys) (a + b) where
  polls := by rw [statusPolls_append, h1.polls, h2.polls]
  delays := by rw [delayCalls_append, h1.delays, h2.delays]
  total := by rw [delayTotal_append, h1.total, h2.total]; omega
  kind := by
    intro e he
    rcases List.mem_append.mp he with he | he
    · exact h1.kind e he
    · exact h2.kind e he
  each := by
    intro ms he
    rcases List.mem_append.mp he with he | he
    · exact h1.each ms he
    · exact h2.each ms he

theorem debugCalls_profile (cfg : Config) (message : String) :
    PollProfile (debugCalls cfg message) 0 := by
  unfold debugCalls
  cases cfg.TIMBER_DEBUG_ENABLED <;>
    exact ⟨by simp [statusPolls], by simp [delayCalls, Effect.isDelay], by simp [delayTotal],
      by simp [Effect.isConnectOrLog], by simp⟩

theorem loadCalls_profile (cfg : Config) (save : Bool) : PollProfile (loadCalls cfg save) 0 := by
  have hd := debugCalls_profile cfg "WiFi credentials saved"
  have h4 : PollProfile [Effect.prefs_begin "wifi" true, .prefs_getString "ssid",
      .prefs_getString "password", .prefs_end] 0 :=
    ⟨by simp [statusPolls], by simp [delayCalls, Effect.isDelay], by simp [delayTotal],
      by simp [Effect.isConnectOrLog], by simp⟩
  have h5 : PollProfile [Effect.prefs_begin "wifi" false, .prefs_putString "ssid" cfg.WIFI_SSID,
      .prefs_putString "password" cfg.WIFI_PASS, .prefs_end] 0 :=
    ⟨by simp [statusPolls], by simp [delayCalls, Effect.isDelay], by simp [delayTotal],
      by simp [Effect.isConnectOrLog], by simp⟩
  unfold loadCalls
  cases save
  · simpa using h4
  · exact h4.append (h5.append hd)

theorem beginCalls_profile (cfg : Config) (ssid password : String) :
    PollProfile (beginCalls cfg ssid password) 0 := by
  unfold beginCalls
  cases cfg.TIMBER_DEBUG_ENABLED <;>
    exact ⟨by simp [statusPolls], by simp [delayCalls, Effect.isDelay], by simp [delayTotal],
      by simp [Effect.isConnectOrLog], by simp⟩

theorem beginConnect_extends (cfg : Config) (ssid password : String) (m : Machine) :
    Extends m (beginConnect cfg ssid password m) (beginCalls cfg ssid password) := by
  unfold beginConnect beginCalls
  cases cfg.TIMBER_DEBUG_ENABLED
  · exact ⟨by simp, rfl, rfl⟩
  · exact ⟨by simp, rfl, rfl⟩

theorem beginConnect_statusCalls (cfg : Config) (ssid password : String) (m : Machine) :
    (beginConnect cfg ssid password m).statusCalls = m.statusCalls := by
  unfold beginConnect
  cases cfg.TIMBER_DEBUG_ENABLED <;> rfl

theorem beginConnect_nvs (cfg : Config) (ssid password : String) (m : Machine) :
    (beginConnect cfg ssid password m).nvs = m.nvs := by
  unfold beginConnect
  cases cfg.TIMBER_DEBUG_ENABLED <;> rfl

theorem finishCalls_profile (cfg : Config) (isOnline : Bool) :
    PollProfile (finishCalls cfg isOnline) 0 := by
  unfold finishCalls
  cases isOnline
  · exact debugCalls_profile cfg _
  · have h1 : PollProfile [Effect.wifi_localIP] 0 :=
      ⟨by simp [statusPolls], by simp [delayCalls, Effect.isDelay], by simp [delayTotal],
        by simp [Effect.isConnectOrLog], by simp⟩
    exact (debugCalls_profile cfg _).append h1

theorem finishConnect_extends (cfg : Config) (env : Env) (r : Bool × Machine) :
    Extends r.2 (finishConnect cfg env r) (finishCalls cfg r.1) := by
  unfold finishConnect finishCalls
  cases r.1
  · exact sendDebugMessage_extends cfg _ r.2
  · have h := sendDebugMessage_extends cfg "Connection to WiFi established!" r.2
    simp only [if_true]
    refine ⟨?_, ?_, ?_⟩
    · simp [h.trace_eq]
    · simp [h.suspended_eq]
    · simp only [emit_bell, sendDebugMessage_bell]; rfl

theorem finishConnect_statusCalls (cfg : Config) (env : Env) (r : Bool × Machine) :
    (finishConnect cfg env r).statusCalls = r.2.statusCalls := by
  unfold finishConnect
  cases r.1 <;> simp [sendDebugMessage_statusCalls]

theorem finishConnect_nvs (cfg : Config) (env : Env) (r : Bool × Machine) :
    (finishConnect cfg env r).nvs = r.2.nvs := by
  unfold finishConnect
  cases r.1 <;> simp [sendDebugMessage_nvs]

theorem finishConnect_online (cfg : Config) (env : Env) (r : Bool × Machine) :
    (finishConnect cfg env r).bell.online_ = (r.1 || r.2.bell.online_)
    ∧ (r.1 = true → (finishConnect cfg env r).bell.ip_address_ = env.wifi_localIP) := by
  unfold finishConnect
  cases r.1 <;> simp [sendDebugMessage_bell]

/-- The poll loop as a log extension. -/
theorem pollLoop_extends (cfg : Config) (env : Env) (m : Machine) :
    ∃ es, Extends m (pollLoop cfg env false false 0 m).2 es
      ∧ PollProfile es (statusPolls es)
      ∧ statusPolls es ≤ 9
      ∧ (pollLoop cfg env false false 0 m).2.statusCalls = m.statusCalls + statusPolls es
      ∧ (pollLoop cfg env false false 0 m).2.nvs = m.nvs
      ∧ (pollLoop cfg env false false 0 m).2.bell = m.bell
      ∧ ∀ e ∈ es, e = .wifi_status ∨ e = .delay 500 ∨ e = .serial "." := by
  obtain ⟨hb, hn, hs, es, ht, hc, hle, hd, hdt, hall⟩ :=
    pollLoop_frame cfg env 9 0 false false m rfl
  refine ⟨es, ⟨ht, hs, ?_⟩, ⟨rfl, hd, hdt, ?_, ?_⟩, by omega, hc, hn, hb, hall⟩
  · rw [hb]; exact sameButNetwork_refl _
  · intro e he
    rcases hall e he with h | h | h <;> rw [h] <;> rfl
  · intro ms he
    rcases hall _ he with h | h | h
    · cases h
    · cases h; rfl
    · cases h

/-- What `setupWiFiConnection` appends to the log and what it leaves alone. -/
theorem setupWiFiConnection_extends (cfg : Config) (env : Env) (m : Machine) :
    ∃ es, Extends m (setupWiFiConnection cfg env m) es
      ∧ PollProfile es (statusPolls es)
      ∧ statusPolls es ≤ 9
      ∧ (setupWiFiConnection cfg env m).statusCalls = m.statusCalls + statusPolls es := by
  rw [setupWiFiConnection_eq]
  have hl := loadCredentials_extends cfg m
  have hlp := loadCalls_profile cfg (isEmpty (nvsGetString m.nvs "ssid" ""))
  cases hE : isEmpty (ssidInUse cfg m)
  · simp only [Bool.not_false, if_true]
    have hb := beginConnect_extends cfg (ssidInUse cfg m) (passwordInUse cfg m)
      (loadCredentials cfg m)
    have hbp := beginCalls_profile cfg (ssidInUse cfg m) (passwordInUse cfg m)
    obtain ⟨es, he, hp, hle, hc, -, -, -⟩ := pollLoop_extends cfg env
      (beginConnect cfg (ssidInUse cfg m) (passwordInUse cfg m) (loadCredentials cfg m))
    have hf := finishConnect_extends cfg env (pollLoop cfg env false false 0
      (beginConnect cfg (ssidInUse cfg m) (passwordInUse cfg m) (loadCredentials cfg m)))
    have hfp := finishCalls_profile cfg (pollLoop cfg env false false 0
      (beginConnect cfg (ssidInUse cfg m) (passwordInUse cfg m) (loadCredentials cfg m))).1
    have hall := ((hlp.append hbp).append hp).append hfp
    have hk := hall.polls
    refine ⟨_, ((hl.trans hb).trans he).trans hf, ?_, ?_, ?_⟩
    · rw [hk]; exact hall
    · rw [hk]; omega
    · rw [hk, finishConnect_statusCalls, hc, beginConnect_statusCalls,
        loadCredentials_statusCalls]
      omega
  · simp only [Bool.not_true, Bool.false_eq_true, if_false]
    have hd := sendDebugMessage_extends cfg
      "[WARN] WiFi is unable to connect: missing credentials." (loadCredentials cfg m)
    have hall := hlp.append (debugCalls_profile cfg
      "[WARN] WiFi is unable to connect: missing credentials.")
    have hk := hall.polls
    refine ⟨_, hl.trans hd, ?_, ?_, ?_⟩
    · rw [hk]; exact hall
    · rw [hk]; omega
    · rw [hk, sendDebugMessage_statusCalls, loadCredentials_statusCalls]; omega

theorem loadCredentials_bell (cfg : Config) (m : Machine) :
    (loadCredentials cfg m).bell = m.bell := by
  unfold loadCredentials
  simp only [emit_nvs]
  cases saveGuard (nvsGetString m.nvs "ssid" "")
  · rfl
  · simp only [if_true]; rw [sendDebugMessage_bell]; rfl

theorem beginConnect_bell (cfg : Config) (ssid password : String) (m : Machine) :
    (beginConnect cfg ssid password m).bell = m.bell := by
  unfold beginConnect
  cases cfg.TIMBER_DEBUG_ENABLED <;> rfl

theorem connectStart_statusCalls (cfg : Config) (m : Machine) :
    (connectStart cfg m).statusCalls = m.statusCalls := by
  unfold connectStart
  rw [beginConnect_statusCalls, loadCredentials_statusCalls]

/-- With a usable SSID, the log of `setupWiFiConnection` is: credentials, begin, the
    poll rounds, the closing lines; `online_` is set when the loop ended online and
    is left as it was otherwise. -/
theorem setupWiFiConnection_calls (cfg : Config) (env : Env) (m : Machine)
    (hne : isEmpty (ssidInUse cfg m) = false) :
    ∃ es, since m (setupWiFiConnection cfg env m) =
        loadCalls cfg (isEmpty (nvsGetString m.nvs "ssid" ""))
          ++ beginCalls cfg (ssidInUse cfg m) (passwordInUse cfg m)
          ++ es
          ++ finishCalls cfg (pollOutcome cfg env m)
      ∧ (∀ e ∈ es, e = .wifi_status ∨ e = .delay 500 ∨ e = .serial ".")
      ∧ (setupWiFiConnection cfg env m).statusCalls = m.statusCalls + statusPolls es
      ∧ (setupWiFiConnection cfg env m).statusCalls
          = (pollLoop cfg env false false 0 (connectStart cfg m)).2.statusCalls
      ∧ (setupWiFiConnection cfg env m).bell.online_
          = (pollOutcome cfg env m || m.bell.online_)
      ∧ (pollOutcome cfg env m = true →
          (setupWiFiConnection cfg env m).bell.ip_address_ = env.wifi_localIP) := by
  rw [setupWiFiConnection_eq]
  simp only [hne, Bool.not_false, if_true]
  have hl := loadCredentials_extends cfg m
  have hb := beginConnect_extends cfg (ssidInUse cfg m) (passwordInUse cfg m)
    (loadCredentials cfg m)
  obtain ⟨es, he, -, -, hc, -, hbell, hall⟩ := pollLoop_extends cfg env (connectStart cfg m)
  have hf := finishConnect_extends cfg env (pollLoop cfg env false false 0 (connectStart cfg m))
  have ho := finishConnect_online cfg env (pollLoop cfg env false false 0 (connectStart cfg m))
  have hcs : (connectStart cfg m).bell = m.bell := by
    unfold connectStart; rw [beginConnect_bell, loadCredentials_bell]
  rw [hbell, hcs] at ho
  refine ⟨es, ?_, hall, ?_, ?_, ho.1, ho.2⟩
  · exact since_of_trace m _ _ (((hl.trans hb).trans he).trans hf).trace_eq
  · show (finishConnect cfg env (pollLoop cfg env false false 0 (connectStart cfg m))).statusCalls
      = _
    rw [finishConnect_statusCalls, hc, connectStart_statusCalls]
  · exact finishConnect_statusCalls cfg env _

/-- Without a usable SSID, the log of `setupWiFiConnection` is: credentials and the
    warning; nothing else changes. -/
theorem setupWiFiConnection_missing (cfg : Config) (env : Env) (m : Machine)
    (he : isEmpty (ssidInUse cfg m) = true) :
    since m (setupWiFiConnection cfg env m) =
        loadCalls cfg (isEmpty (nvsGetString m.nvs "ssid" ""))
          ++ debugCalls cfg "[WARN] WiFi is unable to connect: missing credentials."
      ∧ (setupWiFiConnection cfg env m).bell = m.bell := by
  rw [setupWiFiConnection_eq]
  simp only [he, Bool.not_true, Bool.false_eq_true, if_false]
  have hl := loadCredentials_extends cfg m
  have hd := sendDebugMessage_extends cfg
    "[WARN] WiFi is unable to connect: missing credentials." (loadCredentials cfg m)
  exact ⟨since_of_trace m _ _ (hl.trans hd).trace_eq,
    by rw [sendDebugMessage_bell, loadCredentials_bell]⟩

/-- The credential store after `setupWiFiConnection`. -/
theorem setupWiFiConnection_nvs (cfg : Config) (env : Env) (m : Machine) :
    (setupWiFiConnection cfg env m).nvs =
      if isEmpty (nvsGetString m.nvs "ssid" "") then
        nvsPutString (nvsPutString m.nvs "ssid" cfg.WIFI_SSID) "password" cfg.WIFI_PASS
      else m.nvs := by
  rw [setupWiFiConnection_eq, ← loadCredentials_nvs]
  cases isEmpty (ssidInUse cfg m)
  · simp only [Bool.not_false, if_true]
    obtain ⟨es, -, -, -, -, hn, -, -⟩ := pollLoop_extends cfg env (connectStart cfg m)
    show (finishConnect cfg env (pollLoop cfg env false false 0 (connectStart cfg m))).nvs = _
    rw [finishConnect_nvs, hn]
    unfold connectStart
    rw [beginConnect_nvs]
  · simp only [Bool.not_true, Bool.false_eq_true, if_false]
    rw [sendDebugMessage_nvs]

/-- With a usable SSID: pending polls, then a connected one within the nine the
    loop makes, bring the device online with the radio's address. -/
theorem setupWiFiConnection_connects (cfg : Config) (env : Env) (m : Machine) (k : Nat)
    (hne : isEmpty (ssidInUse cfg m) = false) (hk : k + 1 ≤ 9)
    (hp : ∀ i, i < k → (env.wifi_status (m.statusCalls + i)).isPending = true)
    (hc : env.wifi_status (m.statusCalls + k) = .WL_CONNECTED) :
    (setupWiFiConnection cfg env m).bell.online_ = true
    ∧ (setupWiFiConnection cfg env m).bell.ip_address_ = env.wifi_localIP
    ∧ (setupWiFiConnection cfg env m).statusCalls = m.statusCalls + k + 1 := by
  obtain ⟨es, -, -, -, hs, ho, hip⟩ := setupWiFiConnection_calls cfg env m hne
  have hcs := connectStart_statusCalls cfg m
  obtain ⟨a, b⟩ := pollLoop_connects cfg env k 0 (connectStart cfg m) (by omega)
    (by intro i hi; rw [hcs]; exact hp i hi) (by rw [hcs]; exact hc)
  have hout : pollOutcome cfg env m = true := a
  refine ⟨by rw [ho, hout]; rfl, hip hout, ?_⟩
  rw [hs, b, hcs]

/-- With a usable SSID and nine pending polls, the loop gives up after exactly those
    nine polls and `online_` is left as it was. -/
theorem setupWiFiConnection_exhausts (cfg : Config) (env : Env) (m : Machine)
    (hne : isEmpty (ssidInUse cfg m) = false)
    (hp : ∀ i, i < 9 → (env.wifi_status (m.statusCalls + i)).isPending = true) :
    (setupWiFiConnection cfg env m).bell.online_ = m.bell.online_
    ∧ (setupWiFiConnection cfg env m).statusCalls = m.statusCalls + 9
    ∧ statusPolls (since m (setupWiFiConnection cfg env m)) = 9 := by
  obtain ⟨es, hext, -, -, hsc⟩ := setupWiFiConnection_extends cfg env m
  obtain ⟨es2, -, -, -, hs, ho, -⟩ := setupWiFiConnection_calls cfg env m hne
  have hcs := connectStart_statusCalls cfg m
  obtain ⟨a, b⟩ := pollLoop_exhausts cfg env 9 0 (connectStart cfg m) (by omega)
    (by intro i hi; rw [hcs]; exact hp i hi)
  have hout : pollOutcome cfg env m = false := a
  have h9 : (setupWiFiConnection cfg env m).statusCalls = m.statusCalls + 9 := by
    rw [hs, b, hcs]
  refine ⟨by rw [ho, hout]; rfl, h9, ?_⟩
  rw [since_of_trace m _ es hext.trace_eq]
  omega

/-! ## Connection setup: store writes and connection attempts -/

/-- The only writes to the store and connection attempts of `setupWiFiConnection`
    with a usable SSID, in order: the two writes when the store held no SSID, then
    one `WiFi.begin` with the credentials in use. -/
theorem setupWiFiConnection_writes_then_begins (cfg : Config) (env : Env) (m : Machine)
    (hne : isEmpty (ssidInUse cfg m) = false) :
    (since m (setupWiFiConnection cfg env m)).filter
        (fun e => e.isPrefsWrite || e.isWifiBegin) =
      (if isEmpty (nvsGetString m.nvs "ssid" "") then
          [Effect.prefs_putString "ssid" cfg.WIFI_SSID,
            Effect.prefs_putString "password" cfg.WIFI_PASS]
        else [])
      ++ [Effect.wifi_begin (ssidInUse cfg m) (passwordInUse cfg m)] := by
  obtain ⟨es, hs, hall, -⟩ := setupWiFiConnection_calls cfg env m hne
  have hes : es.filter (fun e => e.isPrefsWrite || e.isWifiBegin) = [] := by
    rw [List.filter_eq_nil_iff]
    intro e he
    rcases hall e he with h | h | h <;> rw [h] <;> simp [Effect.isPrefsWrite, Effect.isWifiBegin]
  rw [hs]
  simp only [List.filter_append, hes]
  cases hd : cfg.TIMBER_DEBUG_ENABLED <;> cases isEmpty (nvsGetString m.nvs "ssid" "") <;>
    cases pollOutcome cfg env m <;>
    simp [loadCalls, beginCalls, finishCalls, debugCalls, hd, Effect.isPrefsWrite,
      Effect.isWifiBegin]

/-! ## The webhook request: facts -/

theorem ensureWiFiConnected_connected (cfg : Config) (env : Env) (m : Machine)
    (h : env.wifi_status m.statusCalls = .WL_CONNECTED) :
    ensureWiFiConnected cfg env m =
      { bell := { m.bell with online_ := true }
        nvs := m.nvs
        statusCalls := m.statusCalls + 1
        trace := m.trace ++ [.wifi_status]
        suspended := m.suspended } := by
  simp [ensureWiFiConnected, readStatus, h, emit]

theorem ensureWiFiConnected_reconnect (cfg : Config) (env : Env) (m : Machine)
    (h : env.wifi_status m.statusCalls ≠ .WL_CONNECTED) :
    ensureWiFiConnected cfg env m = setupWiFiConnection cfg env (reconnectStart m) := by
  simp [ensureWiFiConnected, readStatus, h, reconnectStart]

theorem reconnectStart_extends (m : Machine) :
    Extends m (reconnectStart m)
      [.wifi_status, .serial "[WARN] WiFi disconnected, reconnecting...\r\n",
        .wifi_disconnect false] :=
  ⟨by simp [reconnectStart], rfl, rfl⟩

/-- What `ensureWiFiConnected` appends to the log: logging, credential store and
    radio calls only. -/
theorem ensureWiFiConnected_extends (cfg : Config) (env : Env) (m : Machine) :
    ∃ es, Extends m (ensureWiFiConnected cfg env m) es
      ∧ ∀ e ∈ es, e.isConnectOrLog = true := by
  by_cases h : env.wifi_status m.statusCalls = .WL_CONNECTED
  · rw [ensureWiFiConnected_connected cfg env m h]
    exact ⟨[.wifi_status], ⟨rfl, rfl, rfl⟩, by simp [Effect.isConnectOrLog]⟩
  · rw [ensureWiFiConnected_reconnect cfg env m h]
    obtain ⟨es, hext, hp, -, -⟩ := setupWiFiConnection_extends cfg env (reconnectStart m)
    refine ⟨_, (reconnectStart_extends m).trans hext, ?_⟩
    intro e he
    rcases List.mem_append.mp he with he | he
    · exact (by simp [Effect.isConnectOrLog] :
        ∀ x ∈ [Effect.wifi_status, .serial "[WARN] WiFi disconnected, reconnecting...\r\n",
          .wifi_disconnect false], x.isConnectOrLog = true) e he
    · exact hp.kind e he

theorem sendHTTPRequest_offline (cfg : Config) (env : Env) (url : String) (m : Machine)
    (h : (ensureWiFiConnected cfg env m).bell.online_ = false) :
    sendHTTPRequest cfg env url m =
      (false, emit (.serial "[WARN] Cannot call webhook - WiFi is not connected\r\n")
        (ensureWiFiConnected cfg env m)) := by
  simp [sendHTTPRequest, h]

theorem sendHTTPRequest_online (cfg : Config) (env : Env) (url : String) (m : Machine)
    (h : (ensureWiFiConnected cfg env m).bell.online_ = true) :
    (sendHTTPRequest cfg env url m).1 = decide (env.http_POST > 0)
    ∧ Extends (ensureWiFiConnected cfg env m) (sendHTTPRequest cfg env url m).2
        (httpCalls env url)
    ∧ (sendHTTPRequest cfg env url m).2.bell = (ensureWiFiConnected cfg env m).bell := by
  unfold sendHTTPRequest httpCalls
  simp only [h, Bool.not_true, Bool.false_eq_true, if_false]
  generalize ensureWiFiConnected cfg env m = m1
  generalize env.http_POST = code
  generalize toString code = codeText
  by_cases hpos : code > 0
  · simp only [if_pos hpos]
    by_cases h200 : code = HTTP_CODE_OK
    · simp only [if_pos h200]
      cases hlen : (decide (env.http_getString.utf8ByteSize > 0)
          && decide (env.http_getString.utf8ByteSize < 200))
      · simp only [Bool.false_eq_true, if_false]
        exact ⟨by simp [hpos], Extends.of_eq (by simp) (by simp) (by simp), by simp⟩
      · simp only [if_true]
        exact ⟨by simp [hpos], Extends.of_eq (by simp) (by simp) (by simp), by simp⟩
    · simp only [if_neg h200]
      exact ⟨by simp [hpos], Extends.of_eq (by simp) (by simp) (by simp), by simp⟩
  · simp only [if_neg hpos]
    exact ⟨by simp [hpos], Extends.of_eq (by simp) (by simp) (by simp), by simp⟩

theorem httpCalls_kind (env : Env) (url : String) :
    ∀ e ∈ httpCalls env url, e.isNetworkOrLog = true := by
  unfold httpCalls
  generalize env.http_POST = code
  generalize toString code = codeText
  by_cases hpos : code > 0
  · simp only [if_pos hpos]
    by_cases h200 : code = HTTP_CODE_OK
    · simp only [if_pos h200]
      cases hlen : (decide (env.http_getString.utf8ByteSize > 0)
          && decide (env.http_getString.utf8ByteSize < 200)) <;>
        simp [Effect.isNetworkOrLog]
    · simp only [if_neg h200]
      simp [Effect.isNetworkOrLog]
  · simp only [if_neg hpos]
    simp [Effect.isNetworkOrLog]

theorem isNetworkOrLog_of_isConnectOrLog (e : Effect) (h : e.isConnectOrLog = true) :
    e.isNetworkOrLog = true := by
  cases e <;> simp_all [Effect.isConnectOrLog, Effect.isNetworkOrLog]

/-- What `sendHTTPRequest` appends to the log: logging, credential store, radio and
    HTTP client calls only. -/
theorem sendHTTPRequest_extends (cfg : Config) (env : Env) (url : String) (m : Machine) :
    ∃ es, Extends m (sendHTTPRequest cfg env url m).2 es
      ∧ ∀ e ∈ es, e.isNetworkOrLog = true := by
  obtain ⟨es, hext, hk⟩ := ensureWiFiConnected_extends cfg env m
  cases h : (ensureWiFiConnected cfg env m).bell.online_
  · rw [sendHTTPRequest_offline cfg env url m h]
    refine ⟨_, hext.trans (Extends.emit _ _), ?_⟩
    intro e he
    rcases List.mem_append.mp he with he | he
    · exact isNetworkOrLog_of_isConnectOrLog e (hk e he)
    · rw [List.mem_singleton.mp he]; rfl
  · obtain ⟨-, h2, -⟩ := sendHTTPRequest_online cfg env url m h
    refine ⟨_, hext.trans h2, ?_⟩
    intro e he
    rcases List.mem_append.mp he with he | he
    · exact isNetworkOrLog_of_isConnectOrLog e (hk e he)
    · exact httpCalls_kind env url e he

/-- The log of `handleButtonPress`: its entry, then logging, credential store, radio
    and HTTP client calls only. -/
theorem handleButtonPress_extends (cfg : Config) (env : Env) (m : Machine) :
    ∃ es, Extends m (handleButtonPress cfg env m) ([.call_handleButtonPress] ++ es)
      ∧ ∀ e ∈ es, e.isNetworkOrLog = true := by
  obtain ⟨es, hext, hk⟩ := sendHTTPRequest_extends cfg env cfg.WEBHOOK_URL
    (emit .call_handleButtonPress m)
  unfold handleButtonPress
  simp only []
  generalize sendHTTPRequest cfg env cfg.WEBHOOK_URL (emit .call_handleButtonPress m) = r
    at hext ⊢
  obtain ⟨sent, m2⟩ := r
  have h1 := (Extends.emit .call_handleButtonPress m).trans hext
  cases sent
  · refine ⟨es ++ [.serial "[WARN] Failed to send press notification\r\n"], ?_, ?_⟩
    · have := h1.trans (Extends.emit (.serial "[WARN] Failed to send press notification\r\n") m2)
      simpa [List.append_assoc] using this
    · intro e he
      rcases List.mem_append.mp he with he | he
      · exact hk e he
      · rw [List.mem_singleton.mp he]; rfl
  · refine ⟨es ++ [.serial "[INFO] Press notification sent successfully!\r\n"], ?_, ?_⟩
    · have := h1.trans
        (Extends.emit (.serial "[INFO] Press notification sent successfully!\r\n") m2)
      simpa [List.append_assoc] using this
    · intro e he
      rcases List.mem_append.mp he with he | he
      · exact hk e he
      · rw [List.mem_singleton.mp he]; rfl

theorem enterDeepSleep_extends (m : Machine) :
    (enterDeepSleep m).trace = m.trace ++ sleepSequence
    ∧ (enterDeepSleep m).suspended = true
    ∧ (enterDeepSleep m).bell = m.bell
    ∧ (enterDeepSleep m).nvs = m.nvs := by
  simp [enterDeepSleep, sleepSequence]

/-! ## The run loop and the wake dispatcher: facts -/

theorem count_eq_zero_of_kind (a : Effect) (es : List Effect) (ha : a.isNetworkOrLog = false)
    (hall : ∀ e ∈ es, e.isNetworkOrLog = true) : es.count a = 0 := by
  rw [List.count_eq_zero]
  intro hmem
  have := hall a hmem
  rw [ha] at this
  exact Bool.noConfusion this

theorem ButtonInvariant_of_sameButNetwork {a b : DoorBell} (h : sameButNetwork a b)
    (ha : ButtonInvariant a) : ButtonInvariant b := by
  unfold sameButNetwork at h
  unfold ButtonInvariant at *
  rw [h]
  exact ha

theorem OnLoop_press_edge (cfg : Config) (env : Env) (m : Machine) (now : Nat)
    (hold : m.bell.btn_state_ = HIGH) :
    OnLoop cfg env LOW now m = .ok (emit (.delay 10) (afterPress m now)) := by
  unfold OnLoop
  simp only [hold, and_self, if_true]
  rfl

theorem OnLoop_no_edge (cfg : Config) (env : Env) (m : Machine) (level : Bool) (now : Nat)
    (hold : m.bell.btn_state_ = level) :
    OnLoop cfg env level now m = .ok (emit (.delay 10) (afterSample m level)) := by
  unfold OnLoop
  cases level <;> simp [hold, HIGH, LOW, afterSample]

theorem OnLoop_release_edge (cfg : Config) (env : Env) (m : Machine) (now : Nat)
    (hold : m.bell.btn_state_ = LOW) :
    OnLoop cfg env HIGH now m =
      match m.bell.btn_press_tz_ with
      | none => .error .uninitializedRead
      | some press =>
        if pressDuration now press ≥ DEBOUNCE_DELAY then
          .ok (enterDeepSleep (emit (.delay 3000)
            (handleButtonPress cfg env (afterRelease m now))))
        else .ok (emit (.delay 10) (afterRelease m now)) := by
  unfold OnLoop
  simp only [hold, HIGH, LOW, Bool.false_eq_true, false_and, and_self, if_false, if_true]
  rfl

theorem afterRelease_extends (m : Machine) (now : Nat) :
    (afterRelease m now).trace = m.trace ++ [.digitalRead PRESS_BUTTON_PIN, .millis]
    ∧ (afterRelease m now).suspended = m.suspended
    ∧ (afterRelease m now).bell = released m.bell now := by
  simp [afterRelease, afterSample]

/-- A release edge after at least `DEBOUNCE_DELAY`: the tick samples, reads the
    clock, handles the press, waits 3000 ms and enters deep sleep. -/
theorem OnLoop_confirmed (cfg : Config) (env : Env) (m : Machine) (now press : Nat)
    (hold : m.bell.btn_state_ = LOW) (hpress : m.bell.btn_press_tz_ = some press)
    (hdur : DEBOUNCE_DELAY ≤ pressDuration now press) :
    ∃ m1 es, OnLoop cfg env HIGH now m = .ok m1
      ∧ since m m1 = [.digitalRead PRESS_BUTTON_PIN, .millis, .call_handleButtonPress] ++ es
          ++ [.delay 3000] ++ sleepSequence
      ∧ (∀ e ∈ es, e.isNetworkOrLog = true)
      ∧ m1.suspended = true
      ∧ sameButNetwork (released m.bell now) m1.bell := by
  obtain ⟨es, hext, hk⟩ := handleButtonPress_extends cfg env (afterRelease m now)
  obtain ⟨ht, hs, hb, -⟩ := enterDeepSleep_extends (emit (.delay 3000)
    (handleButtonPress cfg env (afterRelease m now)))
  obtain ⟨rt, -, rb⟩ := afterRelease_extends m now
  refine ⟨_, es, ?_, ?_, hk, hs, ?_⟩
  · rw [OnLoop_release_edge cfg env m now hold, hpress]
    simp only []
    rw [if_pos (by exact hdur)]
  · apply since_of_trace
    rw [ht, emit_trace, hext.trace_eq, rt]
    simp
  · rw [hb, emit_bell, ← rb]
    exact hext.bell_eq

/-- A release edge before `DEBOUNCE_DELAY`: the tick samples, reads the clock and
    waits its 10 ms. -/
theorem OnLoop_discarded (cfg : Config) (env : Env) (m : Machine) (now press : Nat)
    (hold : m.bell.btn_state_ = LOW) (hpress : m.bell.btn_press_tz_ = some press)
    (hdur : pressDuration now press < DEBOUNCE_DELAY) :
    OnLoop cfg env HIGH now m = .ok (emit (.delay 10) (afterRelease m now)) := by
  rw [OnLoop_release_edge cfg env m now hold, hpress]
  simp only []
  rw [if_neg (by omega)]

/-- Dispatcher `OnWake` after a wake by the button: the wake cause is read, the press is
    handled, and after 500 ms the device enters deep sleep. -/
theorem OnWake_button (cfg : Config) (env : Env) (m : Machine)
    (hcause : env.wakeup_cause = .ESP_SLEEP_WAKEUP_EXT0) :
    ∃ es, since m (OnWake cfg env m) =
        [.esp_sleep_get_wakeup_cause, .call_handleButtonPress] ++ es ++ [.delay 500]
          ++ sleepSequence
      ∧ (∀ e ∈ es, e.isNetworkOrLog = true)
      ∧ (OnWake cfg env m).suspended = true := by
  obtain ⟨es, hext, hk⟩ := handleButtonPress_extends cfg env (emit .esp_sleep_get_wakeup_cause m)
  obtain ⟨ht, hs, -, -⟩ := enterDeepSleep_extends (emit (.delay 500)
    (handleButtonPress cfg env (emit .esp_sleep_get_wakeup_cause m)))
  have hw : OnWake cfg env m = enterDeepSleep (emit (.delay 500)
      (handleButtonPress cfg env (emit .esp_sleep_get_wakeup_cause m))) := by
    unfold OnWake
    simp only [hcause]
  rw [hw]
  refine ⟨es, ?_, hk, hs⟩
  apply since_of_trace
  rw [ht, emit_trace, hext.trace_eq]
  simp

/-- Dispatcher `OnWake` after any other wake: only the wake cause is read. -/
theorem OnWake_other (cfg : Config) (env : Env) (m : Machine)
    (hcause : env.wakeup_cause = .ESP_SLEEP_WAKEUP_OTHER) :
    OnWake cfg env m = emit .esp_sleep_get_wakeup_cause m := by
  unfold OnWake
  simp only [hcause]

theorem runLoop_suspended (cfg : Config) (env : Env) (samples : List (Bool × Nat))
    (m : Machine) (h : m.suspended = true) : runLoop cfg env samples m = .ok m := by
  cases samples with
  | nil => rfl
  | cons x xs =>
    obtain ⟨level, now⟩ := x
    simp [runLoop, h]

theorem pressDuration_of_le (now press : Nat) (h1 : press ≤ now) (h2 : now < ULONG_MOD) :
    pressDuration now press = now - press := by
  unfold pressDuration
  unfold ULONG_MOD at *
  have h3 : now + 2 ^ 32 - press = (now - press) + 2 ^ 32 := by omega
  rw [h3, Nat.add_mod_right]
  exact Nat.mod_eq_of_lt (by omega)

/-- A log of the shape "before, press handling, webhook request, delay, sleep" has
    one entry into `handleButtonPress`, one into `enterDeepSleep`, and no button
    sample after the press handling began. -/
theorem press_then_sleep_counts (pre es : List Effect) (d : Nat)
    (hpre : pressCalls pre = 0 ∧ sleepCalls pre = 0)
    (hk : ∀ e ∈ es, e.isNetworkOrLog = true) :
    pressCalls (pre ++ [.call_handleButtonPress] ++ es ++ [.delay d] ++ sleepSequence) = 1
    ∧ sleepCalls (pre ++ [.call_handleButtonPress] ++ es ++ [.delay d] ++ sleepSequence) = 1
    ∧ (es ++ [Effect.delay d] ++ sleepSequence).countP Effect.isSample = 0
    ∧ pressCalls (es ++ [Effect.delay d] ++ sleepSequence) = 0 := by
  have h1 := count_eq_zero_of_kind .call_handleButtonPress es rfl hk
  have h2 := count_eq_zero_of_kind .call_enterDeepSleep es rfl hk
  have h3 : es.countP Effect.isSample = 0 := by
    rw [List.countP_eq_zero]
    intro e he
    have := hk e he
    cases e <;> simp_all [Effect.isNetworkOrLog, Effect.isSample]
  obtain ⟨p1, p2⟩ := hpre
  unfold pressCalls sleepCalls at *
  refine ⟨?_, ?_, ?_, ?_⟩
  · simp [sleepSequence, h1, p1]
  · simp [sleepSequence, h2, p2]
  · simp [sleepSequence, h3, Effect.isSample]
  · simp [sleepSequence, h1]

theorem filter_isHttp_of_connect (es : List Effect) (hk : ∀ e ∈ es, e.isConnectOrLog = true) :
    es.filter Effect.isHttp = [] := by
  rw [List.filter_eq_nil_iff]
  intro e he
  have := hk e he
  cases e <;> simp_all [Effect.isConnectOrLog, Effect.isHttp]

theorem filter_isPost_of_connect (es : List Effect) (hk : ∀ e ∈ es, e.isConnectOrLog = true) :
    es.filter Effect.isPost = [] := by
  rw [List.filter_eq_nil_iff]
  intro e he
  have := hk e he
  cases e <;> simp_all [Effect.isConnectOrLog, Effect.isPost]

theorem not_mem_of_connect (a : Effect) (es : List Effect) (ha : a.isConnectOrLog = false)
    (hk : ∀ e ∈ es, e.isConnectOrLog = true) : a ∉ es := by
  intro hmem
  have := hk a hmem
  rw [ha] at this
  exact Bool.noConfusion this

theorem httpCalls_posts (env : Env) (url : String) :
    (httpCalls env url).filter Effect.isPost = [Effect.http_POST "\x7b\x7d"] := by
  unfold httpCalls
  generalize env.http_POST = code
  generalize toString code = codeText
  by_cases hpos : code > 0
  · simp only [if_pos hpos]
    by_cases h200 : code = HTTP_CODE_OK
    · simp only [if_pos h200]
      cases hlen : (decide (env.http_getString.utf8ByteSize > 0)
          && decide (env.http_getString.utf8ByteSize < 200)) <;>
        simp [Effect.isPost]
    · simp only [if_neg h200]
      simp [Effect.isPost]
  · simp only [if_neg hpos]
    simp [Effect.isPost]

theorem httpCalls_getString (env : Env) (url : String) :
    Effect.http_getString ∈ httpCalls env url ↔ env.http_POST = 200 := by
  unfold httpCalls
  generalize env.http_POST = code
  generalize toString code = codeText
  by_cases hpos : code > 0
  · simp only [if_pos hpos]
    by_cases h200 : code = HTTP_CODE_OK
    · simp only [if_pos h200]
      have : code = 200 := h200
      cases hlen : (decide (env.http_getString.utf8ByteSize > 0)
          && decide (env.http_getString.utf8ByteSize < 200)) <;>
        simp [this]
    · simp only [if_neg h200]
      have : ¬ code = 200 := h200
      simp [this]
  · simp only [if_neg hpos]
    have : ¬ code = 200 := by omega
    simp [this]

theorem httpCalls_logs_body (env : Env) (url : String) (h200 : env.http_POST = 200)
    (hlen : (decide (env.http_getString.utf8ByteSize > 0)
      && decide (env.http_getString.utf8ByteSize < 200)) = true) :
    Effect.serial ("  Response: " ++ env.http_getString ++ "\n") ∈ httpCalls env url := by
  unfold httpCalls
  have hpos : env.http_POST > 0 := by omega
  have hok : env.http_POST = HTTP_CODE_OK := h200
  rw [if_pos hpos, if_pos hok, if_pos hlen]
  simp

/-! ## Claims -/

/-- C4: for every sequence of radio statuses, `setupWiFiConnection` returns after at
    most 10 status polls and at most 10 delays, each of 500 ms, so at most 5000 ms
    of delay in total. -/
theorem setupWiFiConnection_poll_budget (cfg : Config) (env : Env) (m : Machine) :
    statusPolls (since m (setupWiFiConnection cfg env m)) ≤ 10
    ∧ delayCalls (since m (setupWiFiConnection cfg env m)) ≤ 10
    ∧ (∀ ms, Effect.delay ms ∈ since m (setupWiFiConnection cfg env m) → ms = 500)
    ∧ delayTotal (since m (setupWiFiConnection cfg env m)) ≤ 5000 := by
  obtain ⟨es, hext, hp, hle, -⟩ := setupWiFiConnection_extends cfg env m
  rw [since_of_trace m _ es hext.trace_eq]
  refine ⟨by omega, by rw [hp.delays]; omega, hp.each, by rw [hp.total]; omega⟩

/-- C5, at the failing input: the store holds "HomeNet"/"secret123", the radio
    reports a pending status nine times and would report connected at the tenth
    poll; `setupWiFiConnection` makes nine polls, not ten, and leaves the device
    offline. -/
theorem setupWiFiConnection_tenth_poll_never_made :
    (∀ i, i < 9 → ((envWith (radioThen 9 .WL_CONNECTED) 200 "ok").wifi_status i).isPending = true)
    ∧ (envWith (radioThen 9 .WL_CONNECTED) 200 "ok").wifi_status 9 = .WL_CONNECTED
    ∧ statusPolls (since
        (construct Config.unset "Timber" "1.0.0" [("ssid", "HomeNet"), ("password", "secret123")])
        (setupWiFiConnection Config.unset (envWith (radioThen 9 .WL_CONNECTED) 200 "ok")
          (construct Config.unset "Timber" "1.0.0"
            [("ssid", "HomeNet"), ("password", "secret123")]))) = 9
    ∧ (setupWiFiConnection Config.unset (envWith (radioThen 9 .WL_CONNECTED) 200 "ok")
          (construct Config.unset "Timber" "1.0.0"
            [("ssid", "HomeNet"), ("password", "secret123")])).bell.online_ = false := by
  have h := setupWiFiConnection_exhausts Config.unset (envWith (radioThen 9 .WL_CONNECTED) 200 "ok")
    (construct Config.unset "Timber" "1.0.0" [("ssid", "HomeNet"), ("password", "secret123")])
    (by decide) (by decide)
  exact ⟨by decide, by decide, h.2.2, h.1⟩

/-- C6, at the failing input: with an empty store and the defaults
    "Default"/"Default", `setupWiFiConnection` on the freshly constructed object
    writes "Default"/"Default" to the store and calls `WiFi.begin` with them. -/
theorem setupWiFiConnection_saves_sentinel (env : Env) :
    (setupWiFiConnection Config.unset env (construct Config.unset "Timber" "1.0.0" [])).nvs
      = [("password", "Default"), ("ssid", "Default")]
    ∧ (since (construct Config.unset "Timber" "1.0.0" [])
        (setupWiFiConnection Config.unset env (construct Config.unset "Timber" "1.0.0" []))).filter
          (fun e => e.isPrefsWrite || e.isWifiBegin)
      = [Effect.prefs_putString "ssid" "Default", Effect.prefs_putString "password" "Default",
          Effect.wifi_begin "Default" "Default"] := by
  constructor
  · rw [setupWiFiConnection_nvs]; decide
  · rw [setupWiFiConnection_writes_then_begins Config.unset env _ (by decide)]
    decide

/-- C7, as amended (the default SSID is also required to be non-empty): when the
    store holds no SSID and the compiled-in defaults are not "Default",
    `setupWiFiConnection` writes exactly those defaults under the keys `ssid` and
    `password`, then begins one connection attempt with them; and if the radio reports
    connected at one of the first 3 polls, after pending polls only, the device is
    online with the radio's address. -/
theorem setupWiFiConnection_scenarioB (cfg : Config) (env : Env) (m : Machine)
    (hstore : nvsGetString m.nvs "ssid" "" = "")
    (hssid : cfg.WIFI_SSID ≠ "Default") (hpass : cfg.WIFI_PASS ≠ "Default")
    (hne : cfg.WIFI_SSID ≠ "") :
    (since m (setupWiFiConnection cfg env m)).filter (fun e => e.isPrefsWrite || e.isWifiBegin)
      = [Effect.prefs_putString "ssid" cfg.WIFI_SSID,
          Effect.prefs_putString "password" cfg.WIFI_PASS,
          Effect.wifi_begin cfg.WIFI_SSID cfg.WIFI_PASS]
    ∧ nvsGetString (setupWiFiConnection cfg env m).nvs "ssid" "" = cfg.WIFI_SSID
    ∧ nvsGetString (setupWiFiConnection cfg env m).nvs "password" "" = cfg.WIFI_PASS
    ∧ ∀ k, k < 3 →
        (∀ i, i < k → (env.wifi_status (m.statusCalls + i)).isPending = true) →
        env.wifi_status (m.statusCalls + k) = .WL_CONNECTED →
        (setupWiFiConnection cfg env m).bell.online_ = true
        ∧ (setupWiFiConnection cfg env m).bell.ip_address_ = env.wifi_localIP := by
  have hE : isEmpty (nvsGetString m.nvs "ssid" "") = true := by rw [hstore]; rfl
  have hu : ssidInUse cfg m = cfg.WIFI_SSID := by
    unfold ssidInUse; rw [saveGuard_eq, hE]; rfl
  have hw : passwordInUse cfg m = cfg.WIFI_PASS := by
    unfold passwordInUse; rw [saveGuard_eq, hE]; rfl
  have hne2 : isEmpty (ssidInUse cfg m) = false := by
    rw [hu]; exact isEmpty_eq_false _ hne
  refine ⟨?_, ?_, ?_, ?_⟩
  · rw [setupWiFiConnection_writes_then_begins cfg env m hne2, hE, hu, hw]; rfl
  · rw [setupWiFiConnection_nvs, hE]
    simp [nvsGetString, nvsPutString, List.lookup]
  · rw [setupWiFiConnection_nvs, hE]
    simp [nvsGetString, nvsPutString, List.lookup]
  · intro k hk hp hc
    have h := setupWiFiConnection_connects cfg env m k hne2 (by omega) hp hc
    exact ⟨h.1, h.2.1⟩

/-- C7, witness: the build "HomeNet"/"secret123" on an empty store, the radio
    connected at its third poll. -/
theorem setupWiFiConnection_scenarioB_witness :
    nvsGetString (construct homeNet "Timber" "1.0.0" []).nvs "ssid" "" = ""
    ∧ (setupWiFiConnection homeNet (envWith (radioThen 2 .WL_CONNECTED) 200 "ok")
        (construct homeNet "Timber" "1.0.0" [])).bell.online_ = true
    ∧ (setupWiFiConnection homeNet (envWith (radioThen 2 .WL_CONNECTED) 200 "ok")
        (construct homeNet "Timber" "1.0.0" [])).bell.ip_address_ = "192.168.1.23" :=
  ⟨by decide,
    (setupWiFiConnection_scenarioB homeNet (envWith (radioThen 2 .WL_CONNECTED) 200 "ok")
      (construct homeNet "Timber" "1.0.0" []) (by decide) (by decide) (by decide)
      (by decide)).2.2.2 2 (by decide) (by decide) (by decide)⟩

/-- C7 as stated fails: with the defaults ""/"secret123", neither of them
    "Default", and an empty store, `setupWiFiConnection` writes the defaults but
    makes no connection attempt, and the device stays offline although the radio
    would report connected at once. -/
theorem setupWiFiConnection_scenarioB_blank_ssid :
    blankSsid.WIFI_SSID ≠ "Default" ∧ blankSsid.WIFI_PASS ≠ "Default"
    ∧ nvsGetString (construct blankSsid "Timber" "1.0.0" []).nvs "ssid" "" = ""
    ∧ (envWith (radioThen 0 .WL_CONNECTED) 200 "ok").wifi_status 0 = .WL_CONNECTED
    ∧ (since (construct blankSsid "Timber" "1.0.0" [])
        (setupWiFiConnection blankSsid (envWith (radioThen 0 .WL_CONNECTED) 200 "ok")
          (construct blankSsid "Timber" "1.0.0" []))).filter Effect.isWifiBegin = []
    ∧ (setupWiFiConnection blankSsid (envWith (radioThen 0 .WL_CONNECTED) 200 "ok")
          (construct blankSsid "Timber" "1.0.0" [])).bell.online_ = false := by
  have h := setupWiFiConnection_missing blankSsid (envWith (radioThen 0 .WL_CONNECTED) 200 "ok")
    (construct blankSsid "Timber" "1.0.0" []) (by decide)
  refine ⟨by decide, by decide, by decide, by decide, ?_, ?_⟩
  · rw [h.1]; decide
  · rw [h.2]; decide

/-- C1: on a tick that samples HIGH while the last sampled level is LOW with press
    timestamp `p`, `OnLoop` enters `handleButtonPress` exactly once when the duration
    `now - p` (computed on `unsigned long`) is at least 50 ms and not at all when it is
    below 50 ms; a tick that is not a LOW-to-HIGH transition never enters it. -/
theorem OnLoop_debounce (cfg : Config) (env : Env) (m : Machine) (level : Bool) (now : Nat) :
    (∀ p, m.bell.btn_state_ = LOW → m.bell.btn_press_tz_ = some p → level = HIGH →
      ∃ m1, OnLoop cfg env level now m = .ok m1
        ∧ pressCalls (since m m1) = (if 50 ≤ pressDuration now p then 1 else 0)
        ∧ (p ≤ now → now < 2 ^ 32 → pressDuration now p = now - p))
    ∧ (¬ (m.bell.btn_state_ = LOW ∧ level = HIGH) →
      ∃ m1, OnLoop cfg env level now m = .ok m1 ∧ pressCalls (since m m1) = 0) := by
  constructor
  · intro p hold hpress hlevel
    subst hlevel
    by_cases hdur : 50 ≤ pressDuration now p
    · obtain ⟨m1, es, hok, hs, hk, -, -⟩ := OnLoop_confirmed cfg env m now p hold hpress hdur
      refine ⟨m1, hok, ?_, pressDuration_of_le now p⟩
      have h0 := count_eq_zero_of_kind .call_handleButtonPress es rfl hk
      rw [hs, if_pos hdur]
      simp [pressCalls, sleepSequence, h0]
    · have hlt : pressDuration now p < DEBOUNCE_DELAY := by unfold DEBOUNCE_DELAY; omega
      refine ⟨_, OnLoop_discarded cfg env m now p hold hpress hlt, ?_, pressDuration_of_le now p⟩
      rw [if_neg hdur, since_of_trace m _ [.digitalRead PRESS_BUTTON_PIN, .millis, .delay 10]
        (by simp [(afterRelease_extends m now).1])]
      rfl
  · intro hne
    by_cases hsame : m.bell.btn_state_ = level
    · refine ⟨_, OnLoop_no_edge cfg env m level now hsame, ?_⟩
      rw [since_of_trace m _ [.digitalRead PRESS_BUTTON_PIN, .delay 10]
        (by simp [afterSample])]
      rfl
    · have hold : m.bell.btn_state_ = HIGH := by
        cases hs : m.bell.btn_state_
        · cases hl : level
          · exact absurd (hs.trans hl.symm) hsame
          · exact absurd ⟨hs, hl⟩ hne
        · rfl
      have hlevel : level = LOW := by
        cases hl : level
        · rfl
        · exact absurd (hold.trans hl.symm) hsame
      subst hlevel
      refine ⟨_, OnLoop_press_edge cfg env m now hold, ?_⟩
      rw [since_of_trace m _ [.digitalRead PRESS_BUTTON_PIN, .millis,
        .serial "[v] Button pressed...\r\n", .delay 10] (by simp [afterPress, afterSample])]
      rfl

/-- C1, witness: the button went down at 1000 ms and is sampled HIGH at 1200 ms. -/
theorem OnLoop_debounce_witness :
    ∃ m1, OnLoop homeNet (envWith (radioThen 0 .WL_CONNECTED) 200 "ok") HIGH 1200 heldSince1000
        = .ok m1
      ∧ pressCalls (since heldSince1000 m1) = (if 50 ≤ pressDuration 1200 1000 then 1 else 0)
      ∧ (1000 ≤ 1200 → 1200 < 2 ^ 32 → pressDuration 1200 1000 = 1200 - 1000) :=
  (OnLoop_debounce homeNet (envWith (radioThen 0 .WL_CONNECTED) 200 "ok") heldSince1000 HIGH
    1200).1 1000 rfl rfl rfl

/-- C2: on both handling paths (`OnWake` woken by the button, and an `OnLoop` tick
    that confirms a press), whatever the outcome of the notification, the log of the
    call is: entry into `handleButtonPress`, the calls of the webhook request, a delay,
    the calls of `enterDeepSleep` ending in `esp_deep_sleep_start`; it has exactly one
    entry into each of the two, no button sample and no further press handling after
    the first, and it leaves the machine suspended, which the run loop never leaves. -/
theorem press_handling_ends_in_deep_sleep (cfg : Config) (env : Env) (m : Machine) :
    (env.wakeup_cause = .ESP_SLEEP_WAKEUP_EXT0 →
      ∃ es, since m (OnWake cfg env m) =
          [.esp_sleep_get_wakeup_cause] ++ [.call_handleButtonPress] ++ es ++ [.delay 500]
            ++ sleepSequence
        ∧ (∀ e ∈ es, e.isNetworkOrLog = true)
        ∧ pressCalls (since m (OnWake cfg env m)) = 1
        ∧ sleepCalls (since m (OnWake cfg env m)) = 1
        ∧ (es ++ [Effect.delay 500] ++ sleepSequence).countP Effect.isSample = 0
        ∧ pressCalls (es ++ [Effect.delay 500] ++ sleepSequence) = 0
        ∧ (OnWake cfg env m).suspended = true
        ∧ ∀ samples, runLoop cfg env samples (OnWake cfg env m) = .ok (OnWake cfg env m))
    ∧ (∀ now p, m.bell.btn_state_ = LOW → m.bell.btn_press_tz_ = some p →
        50 ≤ pressDuration now p →
      ∃ m1 es, OnLoop cfg env HIGH now m = .ok m1
        ∧ since m m1 =
          [.digitalRead PRESS_BUTTON_PIN, .millis] ++ [.call_handleButtonPress] ++ es
            ++ [.delay 3000] ++ sleepSequence
        ∧ (∀ e ∈ es, e.isNetworkOrLog = true)
        ∧ pressCalls (since m m1) = 1
        ∧ sleepCalls (since m m1) = 1
        ∧ (es ++ [Effect.delay 3000] ++ sleepSequence).countP Effect.isSample = 0
        ∧ pressCalls (es ++ [Effect.delay 3000] ++ sleepSequence) = 0
        ∧ m1.suspended = true
        ∧ ∀ samples, runLoop cfg env samples m1 = .ok m1) := by
  constructor
  · intro hcause
    obtain ⟨es, hs, hk, hsusp⟩ := OnWake_button cfg env m hcause
    have hs2 : since m (OnWake cfg env m) =
        [.esp_sleep_get_wakeup_cause] ++ [.call_handleButtonPress] ++ es ++ [.delay 500]
          ++ sleepSequence := by rw [hs]; simp
    obtain ⟨c1, c2, c3, c4⟩ := press_then_sleep_counts [.esp_sleep_get_wakeup_cause] es 500
      ⟨rfl, rfl⟩ hk
    refine ⟨es, hs2, hk, by rw [hs2]; exact c1, by rw [hs2]; exact c2, c3, c4, hsusp, ?_⟩
    intro samples
    exact runLoop_suspended cfg env samples _ hsusp
  · intro now p hold hpress hdur
    obtain ⟨m1, es, hok, hs, hk, hsusp, -⟩ := OnLoop_confirmed cfg env m now p hold hpress hdur
    have hs2 : since m m1 =
        [.digitalRead PRESS_BUTTON_PIN, .millis] ++ [.call_handleButtonPress] ++ es
          ++ [.delay 3000] ++ sleepSequence := by rw [hs]; simp
    obtain ⟨c1, c2, c3, c4⟩ := press_then_sleep_counts [.digitalRead PRESS_BUTTON_PIN, .millis]
      es 3000 ⟨rfl, rfl⟩ hk
    refine ⟨m1, es, hok, hs2, hk, by rw [hs2]; exact c1, by rw [hs2]; exact c2, c3, c4, hsusp, ?_⟩
    intro samples
    exact runLoop_suspended cfg env samples _ hsusp

/-- C2, witness: a wake by the button with the radio connected and the webhook
    answering 200, and a press held from 1000 ms to 1200 ms. -/
theorem press_handling_ends_in_deep_sleep_witness :
    (OnWake homeNet (envWith (radioThen 0 .WL_CONNECTED) 200 "ok")
        (construct homeNet "Timber" "1.0.0" [])).suspended = true
    ∧ ∃ m1, OnLoop homeNet (envWith (radioThen 0 .WL_CONNECTED) 200 "ok") HIGH 1200 heldSince1000
          = .ok m1
        ∧ pressCalls (since heldSince1000 m1) = 1
        ∧ sleepCalls (since heldSince1000 m1) = 1
        ∧ m1.suspended = true := by
  have h := press_handling_ends_in_deep_sleep homeNet
    (envWith (radioThen 0 .WL_CONNECTED) 200 "ok")
  obtain ⟨es, -, -, -, -, -, -, hsusp, -⟩ := (h (construct homeNet "Timber" "1.0.0" [])).1 rfl
  obtain ⟨m1, es1, hok, -, -, c1, c2, -, -, hs1, -⟩ :=
    (h heldSince1000).2 1200 1000 rfl rfl (by decide)
  exact ⟨hsusp, m1, hok, c1, c2, hs1⟩

/-- C10: from the constructor, over every sequence of samples, the run loop never
    reads an unset press timestamp (it returns without fault), and in the state it
    reaches `btn_active_` is set exactly if the last sampled level is `LOW`, in
    which case a press timestamp is recorded. -/
theorem runLoop_button_invariant (cfg : Config) (env : Env) (name version : String)
    (nvs : List (String × String)) (samples : List (Bool × Nat)) :
    ∃ m, runLoop cfg env samples (construct cfg name version nvs) = .ok m
      ∧ (m.bell.btn_active_ = true ↔ m.bell.btn_state_ = LOW)
      ∧ (m.bell.btn_state_ = LOW → ∃ p, m.bell.btn_press_tz_ = some p) := by
  have step : ∀ (m : Machine) (level : Bool) (now : Nat), ButtonInvariant m.bell →
      ∃ m1, OnLoop cfg env level now m = .ok m1 ∧ ButtonInvariant m1.bell := by
    intro m level now hinv
    by_cases hsame : m.bell.btn_state_ = level
    · refine ⟨_, OnLoop_no_edge cfg env m level now hsame, ?_⟩
      unfold ButtonInvariant at *
      simpa [afterSample, ← hsame] using hinv
    · cases hl : level
      · have hold : m.bell.btn_state_ = HIGH := by
          cases hs : m.bell.btn_state_
          · exact absurd (hs.trans hl.symm) hsame
          · rfl
        refine ⟨_, OnLoop_press_edge cfg env m now hold, ?_⟩
        simp [ButtonInvariant, afterPress, LOW]
      · have hold : m.bell.btn_state_ = LOW := by
          cases hs : m.bell.btn_state_
          · rfl
          · exact absurd (hs.trans hl.symm) hsame
        have hsome := hinv.2 hold
        obtain ⟨p, hp⟩ := Option.isSome_iff_exists.mp hsome
        have hrel : ButtonInvariant (released m.bell now) := by
          simp [ButtonInvariant, released, HIGH, LOW]
        by_cases hdur : DEBOUNCE_DELAY ≤ pressDuration now p
        · obtain ⟨m1, es, hok, -, -, -, hb⟩ := OnLoop_confirmed cfg env m now p hold hp hdur
          exact ⟨m1, hok, ButtonInvariant_of_sameButNetwork hb hrel⟩
        · refine ⟨_, OnLoop_discarded cfg env m now p hold hp (by omega), ?_⟩
          rw [emit_bell, (afterRelease_extends m now).2.2]
          exact hrel
  have run : ∀ (samples : List (Bool × Nat)) (m : Machine), ButtonInvariant m.bell →
      ∃ m1, runLoop cfg env samples m = .ok m1 ∧ ButtonInvariant m1.bell := by
    intro samples
    induction samples with
    | nil => intro m hinv; exact ⟨m, rfl, hinv⟩
    | cons x xs ih =>
      intro m hinv
      obtain ⟨level, now⟩ := x
      cases hsusp : m.suspended
      · obtain ⟨m1, hok, hinv1⟩ := step m level now hinv
        obtain ⟨m2, hok2, hinv2⟩ := ih m1 hinv1
        exact ⟨m2, by simp [runLoop, hsusp, hok, hok2], hinv2⟩
      · exact ⟨m, by simp [runLoop, hsusp], hinv⟩
  have h0 : ButtonInvariant (construct cfg name version nvs).bell := by
    unfold construct
    rw [sendDebugMessage_bell]
    simp [ButtonInvariant, DoorBell.DoorBell, HIGH, LOW]
  obtain ⟨m, hok, hinv⟩ := run samples _ h0
  exact ⟨m, hok, hinv.1, fun h => Option.isSome_iff_exists.mp (hinv.2 h)⟩

/-- C9, at the failing input: after `SetButton(id, pin)` the pin array has one slot,
    and `Setup` reads slot 1 of it, past its end, whatever `id` and `pin` are. -/
theorem Setup_reads_past_pins (cfg : Config) (env : Env) (id : String) (pin : Nat)
    (m : Machine) :
    (SetButton id pin m).bell.button_.dev.pins = [some pin]
    ∧ Setup cfg env (SetButton id pin m) = .error .outOfBoundsRead := by
  constructor
  · rfl
  · simp [Setup, SetButton, Device.readPin]

/-- C3: `sendHTTPRequest` runs `ensureWiFiConnected` first. If the object is then
    not online it returns false and its whole log holds no HTTP client call. If it is
    online it makes exactly one POST, with body "{}", and returns true exactly if the
    response code is positive; the response body is read exactly if the code is 200.
    So code -1 gives false without any body read, and code 200 with body "ok" gives
    true with the body logged. -/
theorem sendHTTPRequest_contract (cfg : Config) (env : Env) (url : String) (m : Machine) :
    (∃ es, (sendHTTPRequest cfg env url m).2.trace
        = (ensureWiFiConnected cfg env m).trace ++ es)
    ∧ ((ensureWiFiConnected cfg env m).bell.online_ = false →
        (sendHTTPRequest cfg env url m).1 = false
        ∧ (since m (sendHTTPRequest cfg env url m).2).filter Effect.isHttp = [])
    ∧ ((ensureWiFiConnected cfg env m).bell.online_ = true →
        (since m (sendHTTPRequest cfg env url m).2).filter Effect.isPost
          = [Effect.http_POST "\x7b\x7d"]
        ∧ ((sendHTTPRequest cfg env url m).1 = true ↔ env.http_POST > 0)
        ∧ (Effect.http_getString ∈ since m (sendHTTPRequest cfg env url m).2
            ↔ env.http_POST = 200)
        ∧ (env.http_POST = -1 →
            (sendHTTPRequest cfg env url m).1 = false
            ∧ Effect.http_getString ∉ since m (sendHTTPRequest cfg env url m).2)
        ∧ (env.http_POST = 200 → env.http_getString = "ok" →
            (sendHTTPRequest cfg env url m).1 = true
            ∧ Effect.serial "  Response: ok\n"
                ∈ since m (sendHTTPRequest cfg env url m).2)) := by
  obtain ⟨es, hext, hk⟩ := ensureWiFiConnected_extends cfg env m
  refine ⟨?_, ?_, ?_⟩
  · cases h : (ensureWiFiConnected cfg env m).bell.online_
    · rw [sendHTTPRequest_offline cfg env url m h]
      exact ⟨_, rfl⟩
    · exact ⟨_, (sendHTTPRequest_online cfg env url m h).2.1.trace_eq⟩
  · intro h
    rw [sendHTTPRequest_offline cfg env url m h]
    refine ⟨rfl, ?_⟩
    rw [since_of_trace m _ _ (hext.trans (Extends.emit _ _)).trace_eq, List.filter_append,
      filter_isHttp_of_connect es hk]
    rfl
  · intro h
    obtain ⟨hr, hx, -⟩ := sendHTTPRequest_online cfg env url m h
    have hs := since_of_trace m _ _ (hext.trans hx).trace_eq
    have hg : Effect.http_getString ∈ since m (sendHTTPRequest cfg env url m).2
        ↔ env.http_POST = 200 := by
      rw [hs, List.mem_append, httpCalls_getString]
      constructor
      · rintro (h1 | h1)
        · exact absurd h1 (not_mem_of_connect _ es rfl hk)
        · exact h1
      · exact Or.inr
    have hres : (sendHTTPRequest cfg env url m).1 = true ↔ env.http_POST > 0 := by
      rw [hr]; simp
    refine ⟨?_, hres, hg, ?_, ?_⟩
    · rw [hs, List.filter_append, filter_isPost_of_connect es hk, httpCalls_posts]
      rfl
    · intro hcode
      constructor
      · cases hv : (sendHTTPRequest cfg env url m).1
        · rfl
        · have := hres.mp hv
          omega
      · intro hmem
        have := hg.mp hmem
        omega
    · intro hcode hbody
      refine ⟨hres.mpr (by omega), ?_⟩
      have hl := httpCalls_logs_body env url hcode (by rw [hbody]; decide)
      rw [hs, hbody] at *
      exact List.mem_append.mpr (Or.inr hl)

/-- C3, witness: the radio is connected and the webhook answers 200 with body "ok". -/
theorem sendHTTPRequest_contract_witness :
    (sendHTTPRequest homeNet (envWith (radioThen 0 .WL_CONNECTED) 200 "ok")
        "http://homeassistant.local:8123/api/webhook/doorbell"
        (construct homeNet "Timber" "1.0.0" [])).1 = true
    ∧ Effect.serial "  Response: ok\n"
        ∈ since (construct homeNet "Timber" "1.0.0" [])
            (sendHTTPRequest homeNet (envWith (radioThen 0 .WL_CONNECTED) 200 "ok")
              "http://homeassistant.local:8123/api/webhook/doorbell"
              (construct homeNet "Timber" "1.0.0" [])).2 :=
  ((sendHTTPRequest_contract homeNet (envWith (radioThen 0 .WL_CONNECTED) 200 "ok")
      "http://homeassistant.local:8123/api/webhook/doorbell"
      (construct homeNet "Timber" "1.0.0" [])).2.2
    (by rw [ensureWiFiConnected_connected _ _ _ (by decide)])).2.2.2.2 rfl rfl

/-- C8: when the radio status is connected, `ensureWiFiConnected` sets `online_`,
    changes no other member, leaves the store as it is and makes one status call and
    nothing else: no disconnect, no `WiFi.begin`, no credential store access. A second
    call under the same condition leaves the state as the first left it and adds no
    connection attempt or credential access either. -/
theorem ensureWiFiConnected_idempotent (cfg : Config) (env : Env) (m : Machine)
    (h1 : env.wifi_status m.statusCalls = .WL_CONNECTED) :
    (ensureWiFiConnected cfg env m).bell = { m.bell with online_ := true }
    ∧ (ensureWiFiConnected cfg env m).nvs = m.nvs
    ∧ (ensureWiFiConnected cfg env m).suspended = m.suspended
    ∧ since m (ensureWiFiConnected cfg env m) = [Effect.wifi_status]
    ∧ (since m (ensureWiFiConnected cfg env m)).filter Effect.isConnectionOrCredential = []
    ∧ (env.wifi_status (m.statusCalls + 1) = .WL_CONNECTED →
        (ensureWiFiConnected cfg env (ensureWiFiConnected cfg env m)).bell
          = (ensureWiFiConnected cfg env m).bell
        ∧ (ensureWiFiConnected cfg env (ensureWiFiConnected cfg env m)).nvs
          = (ensureWiFiConnected cfg env m).nvs
        ∧ (ensureWiFiConnected cfg env (ensureWiFiConnected cfg env m)).suspended
          = (ensureWiFiConnected cfg env m).suspended
        ∧ since m (ensureWiFiConnected cfg env (ensureWiFiConnected cfg env m))
          = [Effect.wifi_status, Effect.wifi_status]
        ∧ (since m (ensureWiFiConnected cfg env (ensureWiFiConnected cfg env m))).filter
            Effect.isConnectionOrCredential
          = (since m (ensureWiFiConnected cfg env m)).filter
              Effect.isConnectionOrCredential) := by
  have e1 := ensureWiFiConnected_connected cfg env m h1
  have s1 : since m (ensureWiFiConnected cfg env m) = [Effect.wifi_status] :=
    since_of_trace m _ _ (by rw [e1])
  refine ⟨by rw [e1], by rw [e1], by rw [e1], s1, by rw [s1]; rfl, ?_⟩
  intro h2
  have h2a : env.wifi_status (ensureWiFiConnected cfg env m).statusCalls = .WL_CONNECTED := by
    rw [e1]; exact h2
  have e2 := ensureWiFiConnected_connected cfg env (ensureWiFiConnected cfg env m) h2a
  have s2 : since m (ensureWiFiConnected cfg env (ensureWiFiConnected cfg env m))
      = [Effect.wifi_status, Effect.wifi_status] :=
    since_of_trace m _ _ (by rw [e2, e1]; simp)
  refine ⟨?_, by rw [e2], by rw [e2], s2, by rw [s2, s1]; rfl⟩
  rw [e2, e1]

/-- C8, witness: a radio that reports connected from the first status call on. -/
theorem ensureWiFiConnected_idempotent_witness :
    (ensureWiFiConnected homeNet (envWith (radioThen 0 .WL_CONNECTED) 200 "ok")
        (ensureWiFiConnected homeNet (envWith (radioThen 0 .WL_CONNECTED) 200 "ok")
          (construct homeNet "Timber" "1.0.0" []))).bell
      = (ensureWiFiConnected homeNet (envWith (radioThen 0 .WL_CONNECTED) 200 "ok")
          (construct homeNet "Timber" "1.0.0" [])).bell
    ∧ since (construct homeNet "Timber" "1.0.0" [])
        (ensureWiFiConnected homeNet (envWith (radioThen 0 .WL_CONNECTED) 200 "ok")
          (ensureWiFiConnected homeNet (envWith (radioThen 0 .WL_CONNECTED) 200 "ok")
            (construct homeNet "Timber" "1.0.0" [])))
      = [Effect.wifi_status, Effect.wifi_status] :=
  ⟨((ensureWiFiConnected_idempotent homeNet (envWith (radioThen 0 .WL_CONNECTED) 200 "ok")
      (construct homeNet "Timber" "1.0.0" []) (by decide)).2.2.2.2.2 (by decide)).1,
   ((ensureWiFiConnected_idempotent homeNet (envWith (radioThen 0 .WL_CONNECTED) 200 "ok")
      (construct homeNet "Timber" "1.0.0" []) (by decide)).2.2.2.2.2 (by decide)).2.2.2.1⟩

end Timber
